import Mathlib

/-
Shallow embedding of the LangChain OpenTelemetry callback handler
(`OpenTelemetryCallbackHandler` and its helper functions) and proofs about
the event-to-span correlation engine.

JavaScript runtime values that flow through the handler payloads are
modelled by the inductive type `JValue`.  Numbers are modelled as rationals
(`Rat`); the claims under study only ever compare numeric payload values
for equality with literals such as 0, 0.7, 12, so no floating-point
behaviour is needed.  The ambient OpenTelemetry context's
"suppress instrumentation" flag is passed to each handler as an explicit
`suppressed : Bool` argument, mirroring the `context.active().getValue(...)`
check at the top of each handler body.
-/

/-- A JavaScript value as it appears in handler payloads. -/
inductive JValue where
  | vUndefined : JValue
  | vNull : JValue
  | vBool (b : Bool) : JValue
  | vNum (q : Rat) : JValue
  | vStr (s : String) : JValue
  | vBuf (bytes : List Nat) : JValue
  | vArr (elems : List JValue) : JValue
  | vObj (fields : List (String × JValue)) : JValue
deriving Repr

open JValue

/-- JavaScript truthiness: undefined, null, false, 0 and the empty string
are falsy; every object, array and buffer is truthy. -/
def jsTruthy : JValue → Bool
  | vUndefined => false
  | vNull => false
  | vBool b => b
  | vNum q => !(q == 0)
  | vStr s => !(s == "")
  | vBuf _ => true
  | vArr _ => true
  | vObj _ => true

/-- The JavaScript `a || b` operator. -/
def jsOr (a b : JValue) : JValue := if jsTruthy a then a else b

/-- Property access `o[k]`: a missing field, or access on a non-object,
yields `undefined` (the guarded call sites never access fields of
`null`/`undefined`). -/
def getField : JValue → String → JValue
  | vObj fields, k => (fields.lookup k).getD vUndefined
  | _, _ => vUndefined

/-- The JavaScript `k in o` operator (only used on plain objects). -/
def hasField : JValue → String → Bool
  | vObj fields, k => (fields.lookup k).isSome
  | _, _ => false

/-- The value is literally `undefined` (JS strict `=== undefined`). -/
def JValue.isUndef : JValue → Bool
  | vUndefined => true
  | _ => false

/-- The value is literally `null` (JS strict `=== null`). -/
def JValue.isNull : JValue → Bool
  | vNull => true
  | _ => false

/-- The value is the empty string (JS strict comparison with the literal
empty string, which only the empty string satisfies). -/
def JValue.isEmptyStr : JValue → Bool
  | vStr s => s == ""
  | _ => false

/-- `typeof v === 'object'` (null, arrays, buffers and plain objects). -/
def JValue.isObjType : JValue → Bool
  | vNull => true
  | vArr _ => true
  | vBuf _ => true
  | vObj _ => true
  | _ => false

section AssocHelpers

variable {κ : Type} {α : Type} [DecidableEq κ]

/-- Lookup of the first binding of a key in an association list (the
JS `Map.get` / object property read used by the handler state). -/
def lookupEntry : List (κ × α) → κ → Option α
  | [], _ => none
  | (k', v) :: rest, k => if k' = k then some v else lookupEntry rest k

/-- Replace the first binding of a key, or append a fresh binding
(JS `Map.set` / object property assignment). -/
def setEntry : List (κ × α) → κ → α → List (κ × α)
  | [], k, v => [(k, v)]
  | (k', v') :: rest, k, v =>
      if k' = k then (k, v) :: rest else (k', v') :: setEntry rest k v

/-- Apply a function to the first binding of a key, if present. -/
def updateEntry : List (κ × α) → κ → (α → α) → List (κ × α)
  | [], _, _ => []
  | (k', v') :: rest, k, f =>
      if k' = k then (k', f v') :: rest else (k', v') :: updateEntry rest k f

theorem lookupEntry_setEntry_self (l : List (κ × α)) (k : κ) (v : α) :
    lookupEntry (setEntry l k v) k = some v := by
  induction l with
  | nil => simp [setEntry, lookupEntry]
  | cons hd tl ih =>
      obtain ⟨k', v'⟩ := hd
      by_cases h : k' = k <;> simp [setEntry, lookupEntry, h, ih]

theorem lookupEntry_setEntry_ne (l : List (κ × α)) {k q : κ} (v : α)
    (h : q ≠ k) : lookupEntry (setEntry l k v) q = lookupEntry l q := by
  have hk : k ≠ q := Ne.symm h
  induction l with
  | nil => simp [setEntry, lookupEntry, hk]
  | cons hd tl ih =>
      obtain ⟨k', v'⟩ := hd
      by_cases hkk : k' = k
      · subst hkk
        simp [setEntry, lookupEntry, hk]
      · simp [setEntry, lookupEntry, hkk, ih]

theorem lookupEntry_updateEntry_self (l : List (κ × α)) (k : κ) (f : α → α) :
    lookupEntry (updateEntry l k f) k = (lookupEntry l k).map f := by
  induction l with
  | nil => simp [updateEntry, lookupEntry]
  | cons hd tl ih =>
      obtain ⟨k', v'⟩ := hd
      by_cases h : k' = k <;> simp [updateEntry, lookupEntry, h, ih]

theorem lookupEntry_updateEntry_ne (l : List (κ × α)) {k q : κ} (f : α → α)
    (h : q ≠ k) : lookupEntry (updateEntry l k f) q = lookupEntry l q := by
  have hk : k ≠ q := Ne.symm h
  induction l with
  | nil => simp [updateEntry, lookupEntry]
  | cons hd tl ih =>
      obtain ⟨k', v'⟩ := hd
      by_cases hkk : k' = k
      · subst hkk
        simp [updateEntry, lookupEntry, hk]
      · simp [updateEntry, lookupEntry, hkk, ih]

theorem updateEntry_eq_of_fix (l : List (κ × α)) (k : κ) (f : α → α)
    (h : ∀ v, lookupEntry l k = some v → f v = v) : updateEntry l k f = l := by
  induction l with
  | nil => simp [updateEntry]
  | cons hd tl ih =>
      obtain ⟨k', v'⟩ := hd
      by_cases hk : k' = k
      · subst hk
        have : f v' = v' := h v' (by simp [lookupEntry])
        simp [updateEntry, this]
      · simp [updateEntry, hk]
        exact ih fun v hv => h v (by simp [lookupEntry, hk, hv])

theorem updateEntry_of_not_mem (l : List (κ × α)) (k : κ) (f : α → α)
    (h : lookupEntry l k = none) : updateEntry l k f = l := by
  induction l with
  | nil => simp [updateEntry]
  | cons hd tl ih =>
      obtain ⟨k', v'⟩ := hd
      by_cases hk : k' = k
      · subst hk; simp [lookupEntry] at h
      · simp [updateEntry, hk]
        exact ih (by simpa [lookupEntry, hk] using h)

end AssocHelpers

namespace GenAIOperationValues

def CHAT : String := "chat"

end GenAIOperationValues

namespace Span_Attributes

def GEN_AI_REQUEST_MODEL : String := "gen_ai.request.model"

def GEN_AI_RESPONSE_MODEL : String := "gen_ai.response.model"

def GEN_AI_REQUEST_MAX_TOKENS : String := "gen_ai.request.max_tokens"

def GEN_AI_REQUEST_TEMPERATURE : String := "gen_ai.request.temperature"

def GEN_AI_REQUEST_TOP_P : String := "gen_ai.request.top_p"

def GEN_AI_SYSTEM : String := "gen_ai.system"

def GEN_AI_OPERATION_NAME : String := "gen_ai.operation.name"

def GEN_AI_RESPONSE_ID : String := "gen_ai.response.id"

def GEN_AI_USAGE_INPUT_TOKENS : String := "gen_ai.usage.input_tokens"

def GEN_AI_USAGE_OUTPUT_TOKENS : String := "gen_ai.usage.output_tokens"

def GEN_AI_AGENT_NAME : String := "gen_ai.agent.name"

def GEN_AI_TOOL_CALL_ID : String := "gen_ai.tool.call_id"

def GEN_AI_TOOL_NAME : String := "gen_ai.tool.name"

end Span_Attributes

/-- The JavaScript String(v) coercion, as used on metadata values and on
chain inputs/outputs. Buffer decoding and the exact numeral rendering of
the host are abstracted by a fixed computable rendering; no claim depends
on the concrete characters these produce. Array elements that are null or
undefined render as the empty string, as in Array.prototype.join. -/
def jsToString : JValue → String
  | vUndefined => "undefined"
  | vNull => "null"
  | vBool b => if b then "true" else "false"
  | vNum q => toString q
  | vStr s => s
  | vBuf bytes => String.mk (bytes.map Char.ofNat)
  | vArr l => String.intercalate ","
      (l.attach.map fun p =>
        if p.1.isNull || p.1.isUndef then "" else jsToString p.1)
  | vObj _ => "[object Object]"
decreasing_by
  have := List.sizeOf_lt_of_mem p.2
  simp_wf
  omega

/-- The _sanitizeMetadataValue helper: null/undefined collapse to null;
booleans, strings, numbers and buffers pass through; arrays are sanitized
element-wise and each element stringified; everything else is coerced with
String(...). -/
def _sanitizeMetadataValue : JValue → JValue
  | vNull => vNull
  | vUndefined => vNull
  | vBool b => vBool b
  | vStr s => vStr s
  | vNum q => vNum q
  | vBuf bytes => vBuf bytes
  | vArr l => vArr (l.attach.map fun p => vStr (jsToString (_sanitizeMetadataValue p.1)))
  | vObj fields => vStr (jsToString (vObj fields))
decreasing_by
  have := List.sizeOf_lt_of_mem p.2
  simp_wf
  omega

/-- Span kinds used by the handlers (SpanKind.INTERNAL, SpanKind.CLIENT). -/
inductive SpanKind where
  | internal : SpanKind
  | client : SpanKind
deriving Repr, DecidableEq

/-- Span status: SpanStatusCode.UNSET, or SpanStatusCode.ERROR with a
message. -/
inductive SpanStatus where
  | unset : SpanStatus
  | error (message : String) : SpanStatus
deriving Repr, DecidableEq

/-- The observable data of one trace span held by the tracing backend.
Per the OpenTelemetry API contract of the external tracer, every mutation
of an already ended span is dropped, and ending an ended span again is a
no-op. -/
structure SpanData where
  name : String
  kind : SpanKind
  parent : Option Nat
  attrs : List (String × JValue)
  status : SpanStatus
  events : List String
  ended : Bool
deriving Repr

/-- One entry of the handler's spanMapping, mirroring the SpanHolder class.
The startTime field of the source is write-only diagnostic state (it is
never read anywhere) and is omitted. requestModel is kept as a raw payload
value, since it is assigned straight from kwargs fields. -/
structure SpanHolder where
  span : Nat
  children : List String
  requestModel : JValue
deriving Repr

/-- The mutable state reachable from one OpenTelemetryCallbackHandler: the
tracer's span store (ids allocated by nextSpan) together with the
handler's spanMapping from runId to SpanHolder. -/
structure HState where
  spans : List (Nat × SpanData)
  nextSpan : Nat
  spanMapping : List (String × SpanHolder)
deriving Repr

def initState : HState := { spans := [], nextSpan := 0, spanMapping := [] }

def lookupSpan (s : HState) (sid : Nat) : Option SpanData :=
  lookupEntry s.spans sid

def lookupRun (s : HState) (rid : String) : Option SpanHolder :=
  lookupEntry s.spanMapping rid

def spanEnded (s : HState) (sid : Nat) : Bool :=
  ((lookupSpan s sid).map SpanData.ended).getD false

def lookupAttr (s : HState) (sid : Nat) (key : String) : Option JValue :=
  match lookupSpan s sid with
  | some d => lookupEntry d.attrs key
  | none => none

def spanStatusOf (s : HState) (sid : Nat) : Option SpanStatus :=
  (lookupSpan s sid).map SpanData.status

/-- span.end is a no-op on an already ended span. -/
def spanEndOp (s : HState) (sid : Nat) : HState :=
  { s with spans := updateEntry s.spans sid fun d => { d with ended := true } }

/-- span.setAttribute: dropped once the span is ended. -/
def spanSetAttrOp (s : HState) (sid : Nat) (key : String) (v : JValue) : HState :=
  { s with spans := updateEntry s.spans sid fun d =>
      if d.ended then d else { d with attrs := setEntry d.attrs key v } }

/-- span.setStatus: dropped once the span is ended. -/
def spanSetStatusOp (s : HState) (sid : Nat) (st : SpanStatus) : HState :=
  { s with spans := updateEntry s.spans sid fun d =>
      if d.ended then d else { d with status := st } }

/-- span.recordException: appends an exception event; dropped once the
span is ended. -/
def spanRecordExceptionOp (s : HState) (sid : Nat) (message : String) : HState :=
  { s with spans := updateEntry s.spans sid fun d =>
      if d.ended then d else { d with events := d.events ++ [message] } }

/-- The _setSpanAttribute helper: the attribute is set only when the value
is not undefined, not null and not the empty string. -/
def _setSpanAttribute (s : HState) (sid : Nat) (name : String) (value : JValue) : HState :=
  if !value.isUndef && !value.isNull && !value.isEmptyStr then
    spanSetAttrOp s sid name value
  else s

/-- One iteration of the model-tag loop of _setRequestParams: the tag value
is the direct payload field when that is not undefined, otherwise the
field nested under invocation_params, guarded by
(kwargs.invocation_params || \x7b\x7d)[modelTag] !== undefined. -/
def tryModelTag (kwargs : JValue) (tag : String) : Option JValue :=
  if !(getField kwargs tag).isUndef then some (getField kwargs tag)
  else if !(getField (jsOr (getField kwargs "invocation_params") (vObj [])) tag).isUndef then
    some (getField (getField kwargs "invocation_params") tag)
  else none

/-- The model-tag loop of _setRequestParams: the tags 'model_id' then
'base_model_id' are tried in order, stopping at the first hit. -/
def findModelTag (kwargs : JValue) : Option JValue :=
  match tryModelTag kwargs "model_id" with
  | some v => some v
  | none => tryModelTag kwargs "base_model_id"

/-- The generation-parameter source object of _setRequestParams:
invocation_params.params || invocation_params when invocation_params is
truthy, else the raw kwargs. -/
def paramsOf (kwargs : JValue) : JValue :=
  if jsTruthy (getField kwargs "invocation_params") then
    jsOr (getField (getField kwargs "invocation_params") "params")
         (getField kwargs "invocation_params")
  else kwargs

/-- The max-tokens candidate params.max_tokens || params.max_new_tokens. -/
def maxTokensOf (params : JValue) : JValue :=
  jsOr (getField params "max_tokens") (getField params "max_new_tokens")

/-- _setRequestParams(span, kwargs, spanHolder): resolves the request
model into the holder's requestModel field and the model attributes, then
extracts the generation parameters. The source passes the SpanHolder by
reference; here runId names its spanMapping slot, and sid is the span the
source received. -/
def _setRequestParams (s : HState) (sid : Nat) (kwargs : JValue) (runId : String) : HState :=
  match lookupRun s runId with
  | none => s
  | some holder =>
    let found := findModelTag kwargs
    let holder' := match found with
      | some v => { holder with requestModel := v }
      | none => holder
    let model := match found with
      | some v => v
      | none => vUndefined
    let model := if holder'.requestModel.isUndef then vUndefined else model
    let s1 : HState := { s with spanMapping := setEntry s.spanMapping runId holder' }
    let s2 := _setSpanAttribute s1 sid Span_Attributes.GEN_AI_REQUEST_MODEL model
    let s3 := _setSpanAttribute s2 sid Span_Attributes.GEN_AI_RESPONSE_MODEL model
    let params := paramsOf kwargs
    let s4 := _setSpanAttribute s3 sid Span_Attributes.GEN_AI_REQUEST_MAX_TOKENS (maxTokensOf params)
    let s5 := _setSpanAttribute s4 sid Span_Attributes.GEN_AI_REQUEST_TEMPERATURE (getField params "temperature")
    _setSpanAttribute s5 sid Span_Attributes.GEN_AI_REQUEST_TOP_P (getField params "top_p")

/-- serialized.id[serialized.id.length - 1]: on a non-array or an empty
array the JS expression yields undefined. -/
def jsIndexLast : JValue → JValue
  | vArr l => l.getLast?.getD vUndefined
  | _ => vUndefined

/-- _getNameFromCallback(serialized, tags?, metadata?, kwargs = \x7b\x7d):
resolves a display name; the tags and metadata arguments are unused in the
source body. -/
def _getNameFromCallback (serialized : JValue) (kwargs : JValue) : JValue :=
  if jsTruthy serialized && jsTruthy (getField serialized "kwargs")
      && jsTruthy (getField (getField serialized "kwargs") "name") then
    getField (getField serialized "kwargs") "name"
  else if jsTruthy (getField kwargs "name") then getField kwargs "name"
  else if jsTruthy (getField serialized "name") then getField serialized "name"
  else if hasField serialized "id" then jsIndexLast (getField serialized "id")
  else vStr "unknown"

/-- Entries of a JS object (Object.entries). -/
def objEntries : JValue → List (String × JValue)
  | vObj fields => fields
  | _ => []

/-- One iteration of the sanitized-metadata loop of _createSpan: an entry
whose value is neither null nor undefined is sanitized and assigned; a
null or undefined value is dropped. -/
def sanitizeEntryStep (acc : List (String × JValue)) (p : String × JValue) :
    List (String × JValue) :=
  if !p.2.isNull && !p.2.isUndef then setEntry acc p.1 (_sanitizeMetadataValue p.2) else acc

/-- The sanitized-metadata loop of _createSpan: entries whose value is
neither null nor undefined are sanitized and assigned into a fresh
object. -/
def sanitizedEntries (md : JValue) : List (String × JValue) :=
  (objEntries md).foldl sanitizeEntryStep []

/-- Whether a parentRunId argument passes the JS truthiness test
parentRunId && ...; undefined and the empty string are falsy. -/
def parentTruthy : Option String → Bool
  | none => false
  | some p => !(p == "")

/-- The pattern x || \x7b\x7d on an optional object argument. -/
def orEmptyObj : Option JValue → JValue
  | some v => if jsTruthy v then v else vObj []
  | none => vObj []

/-- The modelId computed inside _createSpan for the fresh SpanHolder:
'unknown' unless metadata.invocation_params is truthy, in which case a
truthy base_model_id is preferred over a truthy model_id. -/
def createSpanModelId (md : JValue) : JValue :=
  if jsTruthy (getField md "invocation_params") then
    if jsTruthy (getField (getField md "invocation_params") "base_model_id") then
      getField (getField md "invocation_params") "base_model_id"
    else if jsTruthy (getField (getField md "invocation_params") "model_id") then
      getField (getField md "invocation_params") "model_id"
    else vStr "unknown"
  else vStr "unknown"

/-- _createSpan: computes the would-be association metadata (merged inside
context.with with an empty callback in the source, hence without lasting
effect), starts a span parented to the parentRunId record's span when that
record exists, registers a fresh SpanHolder under runId, and appends runId
to the parent's children when the parent lookup (made after the insertion)
succeeds. Returns the new state and the id of the started span. -/
def _createSpan (s : HState) (runId : String) (parentRunId : Option String)
    (spanName : String) (kind : SpanKind) (metadata : Option JValue) : HState × Nat :=
  let md := orEmptyObj metadata
  let _assoc := sanitizedEntries md
  let parentSid : Option Nat :=
    if parentTruthy parentRunId then
      match parentRunId with
      | some p => (lookupEntry s.spanMapping p).map SpanHolder.span
      | none => none
    else none
  let sid := s.nextSpan
  let sd : SpanData :=
    { name := spanName, kind := kind, parent := parentSid,
      attrs := [], status := .unset, events := [], ended := false }
  let spans' := setEntry s.spans sid sd
  let modelId : JValue := createSpanModelId md
  let mapping1 := setEntry s.spanMapping runId
    { span := sid, children := [], requestModel := modelId }
  let mapping2 :=
    if parentTruthy parentRunId then
      match parentRunId with
      | some p =>
        if (lookupEntry mapping1 p).isSome then
          updateEntry mapping1 p fun h => { h with children := h.children ++ [runId] }
        else mapping1
      | none => mapping1
    else mapping1
  ({ spans := spans', nextSpan := sid + 1, spanMapping := mapping2 }, sid)

/-- One iteration of the child-closing loop of _endSpan: when the child id
still has a record in the mapping, that child's span is ended directly
(no recursion into the child's own children). -/
def closeChildSpan (acc : HState) (childId : String) : HState :=
  match lookupRun acc childId with
  | some ch => spanEndOp acc ch.span
  | none => acc

/-- _endSpan(span, runId): for every child id of the runId record still
found in the mapping, ends that child's span, then ends the given span.
Exactly one level of forced closure; the record itself is never removed
from spanMapping (the source has no delete). -/
def _endSpan (s : HState) (sid : Nat) (runId : String) : HState :=
  match lookupRun s runId with
  | none => s
  | some holder =>
    let s1 := holder.children.foldl closeChildSpan s
    spanEndOp s1 sid

/-- _handleError: on a suppressed context or a missing record, returns
unchanged; otherwise sets the error status with the error's message,
records the exception and ends the span with its still-open children. -/
def _handleError (suppressed : Bool) (message : String) (runId : String) (s : HState) : HState :=
  if suppressed then s
  else match lookupRun s runId with
  | none => s
  | some holder =>
    let s1 := spanSetStatusOp s holder.span (.error message)
    let s2 := spanRecordExceptionOp s1 holder.span message
    _endSpan s2 holder.span runId

/-- handleChatModelStart: no-op when suppressed; resolves a model id from
extraParams.invocation_params.model_id (guarded by an object-type check
and a key-presence check), names the span, creates it with kind INTERNAL
and, when extraParams is truthy, extracts the request parameters. The
unused messages, tags and runName arguments are omitted. -/
def handleChatModelStart (suppressed : Bool) (llm : JValue) (runId : String)
    (parentRunId : Option String) (extraParams : Option JValue)
    (metadata : Option JValue) (s : HState) : HState :=
  if suppressed then s
  else
    let ipc := match extraParams with
      | some ep => getField ep "invocation_params"
      | none => vUndefined
    let modelId : JValue :=
      if jsTruthy ipc && ipc.isObjType && hasField ipc "model_id" then
        getField ipc "model_id"
      else vUndefined
    let nameV : JValue := if jsTruthy modelId then modelId else getField llm "name"
    let res := _createSpan s runId parentRunId
      (GenAIOperationValues.CHAT ++ " " ++ jsToString nameV) .internal metadata
    match extraParams with
    | some ep => if jsTruthy ep then _setRequestParams res.1 res.2 ep runId else res.1
    | none => res.1

/-- handleLLMStart: no-op when suppressed; resolves a model id from a
truthy extraParams.invocation_params.model_id, names the span, creates it
with kind CLIENT and sets operation, request-parameter and system
attributes. The unused prompt, tags and runName arguments are omitted. -/
def handleLLMStart (suppressed : Bool) (llm : JValue) (runId : String)
    (parentRunId : Option String) (extraParams : Option JValue)
    (metadata : Option JValue) (s : HState) : HState :=
  if suppressed then s
  else
    let ipc := match extraParams with
      | some ep => getField ep "invocation_params"
      | none => vUndefined
    let modelId : JValue :=
      if jsTruthy ipc && jsTruthy (getField ipc "model_id") then getField ipc "model_id"
      else vUndefined
    let ep := orEmptyObj extraParams
    let nameV : JValue :=
      if jsTruthy modelId then modelId else _getNameFromCallback llm ep
    let res := _createSpan s runId parentRunId
      (GenAIOperationValues.CHAT ++ " " ++ jsToString nameV) .client
      (some (orEmptyObj metadata))
    let s2 := _setSpanAttribute res.1 res.2 Span_Attributes.GEN_AI_OPERATION_NAME
      (vStr GenAIOperationValues.CHAT)
    let s3 := _setRequestParams s2 res.2 ep runId
    let s4 := _setSpanAttribute s3 res.2 Span_Attributes.GEN_AI_SYSTEM (getField llm "name")
    _setSpanAttribute s4 res.2 Span_Attributes.GEN_AI_OPERATION_NAME (vStr "text_completion")

/-- The prompt-token candidate tokenUsage.prompt_tokens ||
tokenUsage.input_token_count || tokenUsage.input_tokens. -/
def promptTokensOf (tokenUsage : JValue) : JValue :=
  jsOr (getField tokenUsage "prompt_tokens")
    (jsOr (getField tokenUsage "input_token_count") (getField tokenUsage "input_tokens"))

/-- The completion-token candidate tokenUsage.completion_tokens ||
tokenUsage.generated_token_count || tokenUsage.output_tokens. -/
def completionTokensOf (tokenUsage : JValue) : JValue :=
  jsOr (getField tokenUsage "completion_tokens")
    (jsOr (getField tokenUsage "generated_token_count") (getField tokenUsage "output_tokens"))

/-- handleLLMEnd: no-op when suppressed or when runId has no record;
otherwise sets response-model, response-id and token-usage attributes from
output.llmOutput when that is truthy, then ends the span (and its
still-open children) via _endSpan. The unused parentRunId, tags and
extraParams arguments are omitted. -/
def handleLLMEnd (suppressed : Bool) (output : JValue) (runId : String) (s : HState) : HState :=
  if suppressed then s
  else match lookupRun s runId with
  | none => s
  | some holder =>
    let sid := holder.span
    let llmOut := getField output "llmOutput"
    let s3 :=
      if jsTruthy llmOut then
        let modelName := jsOr (getField llmOut "model_name") (getField llmOut "model_id")
        let s1 :=
          if jsTruthy modelName then
            _setSpanAttribute s sid Span_Attributes.GEN_AI_RESPONSE_MODEL modelName
          else s
        let idv := getField llmOut "id"
        let s2 :=
          if !idv.isUndef && !idv.isEmptyStr then
            _setSpanAttribute s1 sid Span_Attributes.GEN_AI_RESPONSE_ID idv
          else s1
        let tokenUsage := jsOr (getField llmOut "token_usage") (getField llmOut "usage")
        if jsTruthy tokenUsage then
          let su := _setSpanAttribute s2 sid Span_Attributes.GEN_AI_USAGE_INPUT_TOKENS
            (promptTokensOf tokenUsage)
          _setSpanAttribute su sid Span_Attributes.GEN_AI_USAGE_OUTPUT_TOKENS
            (completionTokensOf tokenUsage)
        else s2
      else s
    _endSpan s3 sid runId

/-- handleLLMError delegates to _handleError. -/
def handleLLMError (suppressed : Bool) (message : String) (runId : String) (s : HState) : HState :=
  _handleError suppressed message runId s

/-- handleChainStart: no-op when suppressed; creates an INTERNAL span named
from the serialized chain, sets the agent name when present in metadata,
and records the stringified inputs. Unused tags/runType/runName omitted. -/
def handleChainStart (suppressed : Bool) (chain : JValue) (inputs : JValue) (runId : String)
    (parentRunId : Option String) (metadata : Option JValue) (s : HState) : HState :=
  if suppressed then s
  else
    let nameV := _getNameFromCallback chain (vObj [])
    let res := _createSpan s runId parentRunId ("chain " ++ jsToString nameV) .internal metadata
    let s2 :=
      match metadata with
      | some m =>
        if jsTruthy m && jsTruthy (getField m "agent_name") then
          _setSpanAttribute res.1 res.2 Span_Attributes.GEN_AI_AGENT_NAME (getField m "agent_name")
        else res.1
      | none => res.1
    _setSpanAttribute s2 res.2 "gen_ai.prompt" (vStr (jsToString inputs))

/-- handleChainEnd: no-op when suppressed or when runId has no record;
otherwise records the stringified outputs and ends the span. -/
def handleChainEnd (suppressed : Bool) (outputs : JValue) (runId : String) (s : HState) : HState :=
  if suppressed then s
  else match lookupRun s runId with
  | none => s
  | some holder =>
    let s1 := _setSpanAttribute s holder.span "gen_ai.completion" (vStr (jsToString outputs))
    _endSpan s1 holder.span runId

/-- handleChainError delegates to _handleError. -/
def handleChainError (suppressed : Bool) (message : String) (runId : String) (s : HState) : HState :=
  _handleError suppressed message runId s

/-- handleToolStart: no-op when suppressed; creates an INTERNAL span named
from the serialized tool and sets tool input/id/name and operation
attributes. Unused tags and runName omitted. -/
def handleToolStart (suppressed : Bool) (tool : JValue) (input : String) (runId : String)
    (parentRunId : Option String) (metadata : Option JValue) (s : HState) : HState :=
  if suppressed then s
  else
    let nameV := _getNameFromCallback tool (vObj [])
    let res := _createSpan s runId parentRunId ("execute_tool " ++ jsToString nameV) .internal metadata
    let s1 := _setSpanAttribute res.1 res.2 "gen_ai.tool.input" (vStr input)
    let s2 :=
      if jsTruthy (getField tool "id") then
        _setSpanAttribute s1 res.2 Span_Attributes.GEN_AI_TOOL_CALL_ID (getField tool "id")
      else s1
    let s3 := _setSpanAttribute s2 res.2 Span_Attributes.GEN_AI_TOOL_NAME nameV
    _setSpanAttribute s3 res.2 Span_Attributes.GEN_AI_OPERATION_NAME (vStr "execute_tool")

/-- handleToolEnd: no-op when suppressed or when runId has no record;
otherwise records the stringified output and ends the span. -/
def handleToolEnd (suppressed : Bool) (output : JValue) (runId : String) (s : HState) : HState :=
  if suppressed then s
  else match lookupRun s runId with
  | none => s
  | some holder =>
    let s1 := _setSpanAttribute s holder.span "gen_ai.tool.output" (vStr (jsToString output))
    _endSpan s1 holder.span runId

/-- handleToolError delegates to _handleError. -/
def handleToolError (suppressed : Bool) (message : String) (runId : String) (s : HState) : HState :=
  _handleError suppressed message runId s

/-- handleAgentAction: the source body never consults the ambient
suppression flag, so the suppressed argument is ignored here exactly as
the ambient flag is by the source. When a record exists for runId, the
existing span is enriched with tool-invocation attributes; no span is
created or ended and spanMapping is untouched. -/
def handleAgentAction (_suppressed : Bool) (action : JValue) (runId : String) (s : HState) : HState :=
  match lookupRun s runId with
  | none => s
  | some holder =>
    let s1 := _setSpanAttribute s holder.span "gen_ai.agent.tool.input" (getField action "toolInput")
    let s2 := _setSpanAttribute s1 holder.span "gen_ai.agent.tool.name" (getField action "tool")
    _setSpanAttribute s2 holder.span Span_Attributes.GEN_AI_OPERATION_NAME (vStr "invoke_agent")

/-- handleAgentEnd: like handleAgentAction, the source body never consults
the ambient suppression flag; it only enriches an existing span with the
agent's return value. -/
def handleAgentEnd (_suppressed : Bool) (action : JValue) (runId : String) (s : HState) : HState :=
  match lookupRun s runId with
  | none => s
  | some holder =>
    _setSpanAttribute s holder.span "gen_ai.agent.tool.output"
      (getField (getField action "returnValues") "output")

/-- A span id on which every backend mutation is dropped: the span is
either absent from the store or already ended. -/
def deadSpan (s : HState) (sid : Nat) : Prop :=
  ∀ d, lookupSpan s sid = some d → d.ended = true

theorem SpanData.set_ended_self (d : SpanData) (h : d.ended = true) :
    { d with ended := true } = d := by
  cases d; simp_all

theorem spanEndOp_dead {s : HState} {sid : Nat} (h : deadSpan s sid) :
    spanEndOp s sid = s := by
  have hu : updateEntry s.spans sid (fun d => { d with ended := true }) = s.spans :=
    updateEntry_eq_of_fix _ _ _ fun d hd => SpanData.set_ended_self d (h d hd)
  simp [spanEndOp, hu]

theorem spanSetAttrOp_dead {s : HState} {sid : Nat} (k : String) (v : JValue)
    (h : deadSpan s sid) : spanSetAttrOp s sid k v = s := by
  have hu : updateEntry s.spans sid
      (fun d => if d.ended then d else { d with attrs := setEntry d.attrs k v }) = s.spans :=
    updateEntry_eq_of_fix _ _ _ fun d hd => by simp [h d hd]
  simp [spanSetAttrOp, hu]

theorem spanSetStatusOp_dead {s : HState} {sid : Nat} (st : SpanStatus)
    (h : deadSpan s sid) : spanSetStatusOp s sid st = s := by
  have hu : updateEntry s.spans sid
      (fun d => if d.ended then d else { d with status := st }) = s.spans :=
    updateEntry_eq_of_fix _ _ _ fun d hd => by simp [h d hd]
  simp [spanSetStatusOp, hu]

theorem spanRecordExceptionOp_dead {s : HState} {sid : Nat} (m : String)
    (h : deadSpan s sid) : spanRecordExceptionOp s sid m = s := by
  have hu : updateEntry s.spans sid
      (fun d => if d.ended then d else { d with events := d.events ++ [m] }) = s.spans :=
    updateEntry_eq_of_fix _ _ _ fun d hd => by simp [h d hd]
  simp [spanRecordExceptionOp, hu]

theorem setSpanAttribute_dead {s : HState} {sid : Nat} (k : String) (v : JValue)
    (h : deadSpan s sid) : _setSpanAttribute s sid k v = s := by
  unfold _setSpanAttribute
  split
  · exact spanSetAttrOp_dead k v h
  · rfl

theorem deadSpan_of_spanEnded {s : HState} {sid : Nat} (h : spanEnded s sid = true) :
    deadSpan s sid := by
  intro d hd
  simpa [spanEnded, hd] using h

theorem deadSpan_of_absent {s : HState} {sid : Nat} (h : lookupSpan s sid = none) :
    deadSpan s sid := by
  intro d hd
  simp [hd] at h

theorem spanEndOp_spanMapping (s : HState) (sid : Nat) :
    (spanEndOp s sid).spanMapping = s.spanMapping := rfl

theorem spanEndOp_nextSpan (s : HState) (sid : Nat) :
    (spanEndOp s sid).nextSpan = s.nextSpan := rfl

theorem lookupSpan_spanEndOp_ne (s : HState) {sid q : Nat} (h : q ≠ sid) :
    lookupSpan (spanEndOp s sid) q = lookupSpan s q := by
  simp [lookupSpan, spanEndOp, lookupEntry_updateEntry_ne _ _ h]

theorem spanEnded_spanEndOp_self {s : HState} {sid : Nat}
    (h : (lookupSpan s sid).isSome = true) : spanEnded (spanEndOp s sid) sid = true := by
  obtain ⟨d, hd⟩ := Option.isSome_iff_exists.mp h
  simp [spanEnded, lookupSpan, spanEndOp, lookupEntry_updateEntry_self,
    show lookupEntry s.spans sid = some d from hd]

theorem spanEnded_spanEndOp_mono {s : HState} {sid q : Nat}
    (h : spanEnded s q = true) : spanEnded (spanEndOp s sid) q = true := by
  by_cases hq : q = sid
  · subst hq
    obtain ⟨d, hd⟩ : ∃ d, lookupSpan s q = some d := by
      cases hl : lookupSpan s q with
      | none => simp [spanEnded, hl] at h
      | some d => exact ⟨d, rfl⟩
    exact spanEnded_spanEndOp_self (by simp [hd])
  · rwa [spanEnded, lookupSpan_spanEndOp_ne s hq]

theorem lookupSpan_spanEndOp_of_ended {s : HState} {sid q : Nat}
    (h : spanEnded s q = true) :
    lookupSpan (spanEndOp s sid) q = lookupSpan s q := by
  by_cases hq : q = sid
  · subst hq
    rw [spanEndOp_dead (deadSpan_of_spanEnded h)]
  · exact lookupSpan_spanEndOp_ne s hq

theorem spanSetAttrOp_spanMapping (s : HState) (sid : Nat) (k : String) (v : JValue) :
    (spanSetAttrOp s sid k v).spanMapping = s.spanMapping := rfl

theorem spanSetAttrOp_nextSpan (s : HState) (sid : Nat) (k : String) (v : JValue) :
    (spanSetAttrOp s sid k v).nextSpan = s.nextSpan := rfl

theorem lookupSpan_spanSetAttrOp_ne (s : HState) {sid q : Nat} (k : String) (v : JValue)
    (h : q ≠ sid) : lookupSpan (spanSetAttrOp s sid k v) q = lookupSpan s q := by
  simp [lookupSpan, spanSetAttrOp, lookupEntry_updateEntry_ne _ _ h]

theorem spanEnded_spanSetAttrOp (s : HState) (sid : Nat) (k : String) (v : JValue)
    (q : Nat) : spanEnded (spanSetAttrOp s sid k v) q = spanEnded s q := by
  by_cases hq : q = sid
  · subst hq
    cases hl : lookupSpan s q with
    | none =>
        simp [spanEnded, lookupSpan, spanSetAttrOp, lookupEntry_updateEntry_self,
          show lookupEntry s.spans q = none from hl]
    | some d =>
        by_cases hd : d.ended <;>
          simp [spanEnded, lookupSpan, spanSetAttrOp, lookupEntry_updateEntry_self,
            show lookupEntry s.spans q = some d from hl, hd]
  · rw [spanEnded, lookupSpan_spanSetAttrOp_ne s k v hq, spanEnded]

theorem isSome_lookupSpan_spanSetAttrOp (s : HState) (sid : Nat) (k : String) (v : JValue)
    (q : Nat) : (lookupSpan (spanSetAttrOp s sid k v) q).isSome = (lookupSpan s q).isSome := by
  by_cases hq : q = sid
  · subst hq
    simp [lookupSpan, spanSetAttrOp, lookupEntry_updateEntry_self]
  · rw [lookupSpan_spanSetAttrOp_ne s k v hq]

theorem setSpanAttribute_spanMapping (s : HState) (sid : Nat) (k : String) (v : JValue) :
    (_setSpanAttribute s sid k v).spanMapping = s.spanMapping := by
  unfold _setSpanAttribute
  split <;> rfl

theorem setSpanAttribute_nextSpan (s : HState) (sid : Nat) (k : String) (v : JValue) :
    (_setSpanAttribute s sid k v).nextSpan = s.nextSpan := by
  unfold _setSpanAttribute
  split <;> rfl

theorem lookupSpan_setSpanAttribute_ne (s : HState) {sid q : Nat} (k : String) (v : JValue)
    (h : q ≠ sid) : lookupSpan (_setSpanAttribute s sid k v) q = lookupSpan s q := by
  unfold _setSpanAttribute
  split
  · exact lookupSpan_spanSetAttrOp_ne s k v h
  · rfl

theorem spanEnded_setSpanAttribute (s : HState) (sid : Nat) (k : String) (v : JValue)
    (q : Nat) : spanEnded (_setSpanAttribute s sid k v) q = spanEnded s q := by
  unfold _setSpanAttribute
  split
  · exact spanEnded_spanSetAttrOp s sid k v q
  · rfl

theorem isSome_lookupSpan_setSpanAttribute (s : HState) (sid : Nat) (k : String) (v : JValue)
    (q : Nat) :
    (lookupSpan (_setSpanAttribute s sid k v) q).isSome = (lookupSpan s q).isSome := by
  unfold _setSpanAttribute
  split
  · exact isSome_lookupSpan_spanSetAttrOp s sid k v q
  · rfl

theorem setRequestParams_nextSpan (s : HState) (sid : Nat) (kw : JValue) (rid : String) :
    (_setRequestParams s sid kw rid).nextSpan = s.nextSpan := by
  unfold _setRequestParams
  cases lookupRun s rid <;> simp [setSpanAttribute_nextSpan]

theorem setRequestParams_run_shape (s : HState) (sid : Nat) (kw : JValue) (rid q : String) :
    ((lookupRun (_setRequestParams s sid kw rid) q).map fun h => (h.span, h.children)) =
      ((lookupRun s q).map fun h => (h.span, h.children)) := by
  unfold _setRequestParams
  cases hr : lookupRun s rid with
  | none => rfl
  | some holder =>
      simp only [lookupRun, setSpanAttribute_spanMapping]
      by_cases hq : q = rid
      · subst hq
        rw [lookupEntry_setEntry_self]
        rw [lookupRun] at hr
        rw [hr]
        cases findModelTag kw <;> rfl
      · rw [lookupEntry_setEntry_ne _ _ hq]

theorem spanEnded_setRequestParams (s : HState) (sid : Nat) (kw : JValue) (rid : String)
    (q : Nat) : spanEnded (_setRequestParams s sid kw rid) q = spanEnded s q := by
  unfold _setRequestParams
  cases lookupRun s rid with
  | none => rfl
  | some holder =>
      simp only [spanEnded_setSpanAttribute]
      rfl

theorem isSome_lookupSpan_setRequestParams (s : HState) (sid : Nat) (kw : JValue)
    (rid : String) (q : Nat) :
    (lookupSpan (_setRequestParams s sid kw rid) q).isSome = (lookupSpan s q).isSome := by
  unfold _setRequestParams
  cases lookupRun s rid with
  | none => rfl
  | some holder =>
      simp only [isSome_lookupSpan_setSpanAttribute]
      rfl

theorem closeChildSpan_spanMapping (acc : HState) (c : String) :
    (closeChildSpan acc c).spanMapping = acc.spanMapping := by
  unfold closeChildSpan
  cases lookupRun acc c <;> rfl

theorem closeChildSpan_nextSpan (acc : HState) (c : String) :
    (closeChildSpan acc c).nextSpan = acc.nextSpan := by
  unfold closeChildSpan
  cases lookupRun acc c <;> rfl

theorem spanEnded_closeChildSpan_mono {acc : HState} {q : Nat} (c : String)
    (h : spanEnded acc q = true) : spanEnded (closeChildSpan acc c) q = true := by
  unfold closeChildSpan
  cases lookupRun acc c with
  | none => exact h
  | some ch => exact spanEnded_spanEndOp_mono h

theorem lookupSpan_closeChildSpan_of_ended {acc : HState} {q : Nat} (c : String)
    (h : spanEnded acc q = true) :
    lookupSpan (closeChildSpan acc c) q = lookupSpan acc q := by
  unfold closeChildSpan
  cases lookupRun acc c with
  | none => rfl
  | some ch => exact lookupSpan_spanEndOp_of_ended h

theorem lookupSpan_closeChildSpan_ne {acc : HState} {q : Nat} {c : String}
    (h : ∀ ch, lookupRun acc c = some ch → q ≠ ch.span) :
    lookupSpan (closeChildSpan acc c) q = lookupSpan acc q := by
  unfold closeChildSpan
  cases hc : lookupRun acc c with
  | none => rfl
  | some ch => exact lookupSpan_spanEndOp_ne acc (h ch hc)

theorem closeChildren_spanMapping (l : List String) (s : HState) :
    (l.foldl closeChildSpan s).spanMapping = s.spanMapping := by
  induction l generalizing s with
  | nil => rfl
  | cons c cs ih => rw [List.foldl_cons, ih, closeChildSpan_spanMapping]

theorem closeChildren_nextSpan (l : List String) (s : HState) :
    (l.foldl closeChildSpan s).nextSpan = s.nextSpan := by
  induction l generalizing s with
  | nil => rfl
  | cons c cs ih => rw [List.foldl_cons, ih, closeChildSpan_nextSpan]

theorem spanEnded_closeChildren_mono (l : List String) {s : HState} {q : Nat}
    (h : spanEnded s q = true) : spanEnded (l.foldl closeChildSpan s) q = true := by
  induction l generalizing s with
  | nil => exact h
  | cons c cs ih => exact ih (spanEnded_closeChildSpan_mono c h)

theorem spanEnded_closeChildren_of_mem (l : List String) {s : HState} {c : String}
    {ch : SpanHolder} (hc : c ∈ l) (hch : lookupRun s c = some ch)
    (hp : (lookupSpan s ch.span).isSome = true) :
    spanEnded (l.foldl closeChildSpan s) ch.span = true := by
  induction l generalizing s with
  | nil => cases hc
  | cons x xs ih =>
      rw [List.foldl_cons]
      by_cases hx : x = c
      · subst hx
        have hstep : closeChildSpan s x = spanEndOp s ch.span := by
          unfold closeChildSpan
          rw [hch]
        rw [hstep]
        exact spanEnded_closeChildren_mono xs (spanEnded_spanEndOp_self hp)
      · have hc' : c ∈ xs := by
          cases hc with
          | head => exact absurd rfl hx
          | tail _ h => exact h
        have hch' : lookupRun (closeChildSpan s x) c = some ch := by
          rw [lookupRun, closeChildSpan_spanMapping]
          exact hch
        have hp' : (lookupSpan (closeChildSpan s x) ch.span).isSome = true := by
          unfold closeChildSpan
          cases hl : lookupRun s x with
          | none => exact hp
          | some ch2 =>
              by_cases hsp : ch.span = ch2.span
              · rw [hsp]
                simp [lookupSpan, spanEndOp, lookupEntry_updateEntry_self]
                cases hq : lookupEntry s.spans ch2.span with
                | none =>
                    rw [hsp] at hp
                    simp [lookupSpan, hq] at hp
                | some d => simp
              · rw [lookupSpan_spanEndOp_ne s hsp]
                exact hp
        exact ih hc' hch' hp'

theorem lookupSpan_closeChildren_frame (l : List String) {s : HState} {q : Nat}
    (h : ∀ c ∈ l, ∀ ch, lookupRun s c = some ch → q ≠ ch.span) :
    lookupSpan (l.foldl closeChildSpan s) q = lookupSpan s q := by
  induction l generalizing s with
  | nil => rfl
  | cons x xs ih =>
      rw [List.foldl_cons]
      have hstep : lookupSpan (closeChildSpan s x) q = lookupSpan s q :=
        lookupSpan_closeChildSpan_ne fun ch hch => h x (List.mem_cons_self x xs) ch hch
      rw [ih fun c hc ch hch => h c (List.mem_cons_of_mem x hc) ch
        (by rwa [lookupRun, closeChildSpan_spanMapping] at hch), hstep]

theorem lookupSpan_closeChildren_of_ended (l : List String) {s : HState} {q : Nat}
    (h : spanEnded s q = true) :
    lookupSpan (l.foldl closeChildSpan s) q = lookupSpan s q := by
  induction l generalizing s with
  | nil => rfl
  | cons x xs ih =>
      rw [List.foldl_cons,
        ih (spanEnded_closeChildSpan_mono x h),
        lookupSpan_closeChildSpan_of_ended x h]

theorem lookupRun_setSpanAttribute (s : HState) (sid : Nat) (k : String) (v : JValue)
    (q : String) : lookupRun (_setSpanAttribute s sid k v) q = lookupRun s q := by
  rw [lookupRun, setSpanAttribute_spanMapping]
  rfl

theorem closeChildren_id (l : List String) (s : HState)
    (h : ∀ c ∈ l, ∀ ch, lookupRun s c = some ch → deadSpan s ch.span) :
    l.foldl closeChildSpan s = s := by
  induction l with
  | nil => rfl
  | cons x xs ih =>
      rw [List.foldl_cons]
      have hx : closeChildSpan s x = s := by
        unfold closeChildSpan
        cases hc : lookupRun s x with
        | none => rfl
        | some ch => exact spanEndOp_dead (h x (List.mem_cons_self x xs) ch hc)
      rw [hx]
      exact ih fun c hc ch hch => h c (List.mem_cons_of_mem x hc) ch hch

theorem endSpan_id (s : HState) (sid : Nat) (r : String) (hdead : deadSpan s sid)
    (hch : ∀ holder, lookupRun s r = some holder →
      ∀ c ∈ holder.children, ∀ ch, lookupRun s c = some ch → deadSpan s ch.span) :
    _endSpan s sid r = s := by
  unfold _endSpan
  cases hr : lookupRun s r with
  | none => rfl
  | some holder =>
      show spanEndOp (holder.children.foldl closeChildSpan s) sid = s
      rw [closeChildren_id holder.children s (hch holder hr)]
      exact spanEndOp_dead hdead

theorem endSpan_spanMapping (s : HState) (sid : Nat) (r : String) :
    (_endSpan s sid r).spanMapping = s.spanMapping := by
  unfold _endSpan
  cases lookupRun s r with
  | none => rfl
  | some holder =>
      show (spanEndOp (holder.children.foldl closeChildSpan s) sid).spanMapping = s.spanMapping
      rw [spanEndOp_spanMapping, closeChildren_spanMapping]

theorem endSpan_nextSpan (s : HState) (sid : Nat) (r : String) :
    (_endSpan s sid r).nextSpan = s.nextSpan := by
  unfold _endSpan
  cases lookupRun s r with
  | none => rfl
  | some holder =>
      show (spanEndOp (holder.children.foldl closeChildSpan s) sid).nextSpan = s.nextSpan
      rw [spanEndOp_nextSpan, closeChildren_nextSpan]

theorem isSome_lookupSpan_spanEndOp (s : HState) (sid q : Nat) :
    (lookupSpan (spanEndOp s sid) q).isSome = (lookupSpan s q).isSome := by
  by_cases hq : q = sid
  · subst hq
    simp [lookupSpan, spanEndOp, lookupEntry_updateEntry_self]
  · rw [lookupSpan_spanEndOp_ne s hq]

theorem isSome_lookupSpan_closeChildSpan (acc : HState) (c : String) (q : Nat) :
    (lookupSpan (closeChildSpan acc c) q).isSome = (lookupSpan acc q).isSome := by
  unfold closeChildSpan
  cases lookupRun acc c with
  | none => rfl
  | some ch => exact isSome_lookupSpan_spanEndOp acc ch.span q

theorem isSome_lookupSpan_closeChildren (l : List String) (s : HState) (q : Nat) :
    (lookupSpan (l.foldl closeChildSpan s) q).isSome = (lookupSpan s q).isSome := by
  induction l generalizing s with
  | nil => rfl
  | cons x xs ih =>
      rw [List.foldl_cons, ih, isSome_lookupSpan_closeChildSpan]

theorem spanEnded_endSpan_self {s : HState} (sid : Nat) (r : String) {holder : SpanHolder}
    (hr : lookupRun s r = some holder) (hp : (lookupSpan s sid).isSome = true) :
    spanEnded (_endSpan s sid r) sid = true := by
  unfold _endSpan
  rw [hr]
  exact spanEnded_spanEndOp_self
    (by rw [isSome_lookupSpan_closeChildren]; exact hp)

theorem createSpan_none (s : HState) (rid : String) (nm : String) (k : SpanKind)
    (md : Option JValue) :
    (_createSpan s rid none nm k md).2 = s.nextSpan ∧
    (_createSpan s rid none nm k md).1.nextSpan = s.nextSpan + 1 ∧
    (_createSpan s rid none nm k md).1.spanMapping =
      setEntry s.spanMapping rid
        { span := s.nextSpan, children := [],
          requestModel := createSpanModelId (orEmptyObj md) } ∧
    lookupSpan (_createSpan s rid none nm k md).1 s.nextSpan =
      some { name := nm, kind := k, parent := none, attrs := [], status := .unset,
             events := [], ended := false } := by
  refine ⟨rfl, rfl, rfl, ?_⟩
  unfold _createSpan lookupSpan
  rw [lookupEntry_setEntry_self]
  rfl

theorem handleLLMStart_none_spec (llm : JValue) (ep md : Option JValue) (r : String)
    (s : HState) :
    (handleLLMStart false llm r none ep md s).nextSpan = s.nextSpan + 1 ∧
    ((lookupRun (handleLLMStart false llm r none ep md s) r).map fun h => (h.span, h.children))
        = some (s.nextSpan, ([] : List String)) ∧
    (lookupSpan (handleLLMStart false llm r none ep md s) s.nextSpan).isSome = true := by
  unfold handleLLMStart
  rw [if_neg (by decide)]
  refine ⟨?_, ?_, ?_⟩
  · simp only [setSpanAttribute_nextSpan, setRequestParams_nextSpan]
    exact (createSpan_none s r _ _ _).2.1
  · simp only [lookupRun_setSpanAttribute, setRequestParams_run_shape]
    rw [lookupRun, (createSpan_none s r _ _ _).2.2.1, lookupEntry_setEntry_self]
    rfl
  · simp only [isSome_lookupSpan_setSpanAttribute, isSome_lookupSpan_setRequestParams]
    rw [(createSpan_none s r _ _ _).2.2.2]
    rfl

theorem handleLLMEnd_closes (out : JValue) (r : String) (s : HState) (holder : SpanHolder)
    (hr : lookupRun s r = some holder) (hp : (lookupSpan s holder.span).isSome = true) :
    spanEnded (handleLLMEnd false out r s) holder.span = true ∧
    (handleLLMEnd false out r s).spanMapping = s.spanMapping ∧
    (handleLLMEnd false out r s).nextSpan = s.nextSpan := by
  unfold handleLLMEnd
  rw [if_neg (by decide)]
  cases hrr : lookupRun s r with
  | none => rw [hrr] at hr; cases hr
  | some holder2 =>
      rw [hrr] at hr
      injection hr with hh
      subst hh
      have hmain : ∀ t : HState, t.spanMapping = s.spanMapping → t.nextSpan = s.nextSpan →
          (lookupSpan t holder2.span).isSome = (lookupSpan s holder2.span).isSome →
          spanEnded (_endSpan t holder2.span r) holder2.span = true ∧
          (_endSpan t holder2.span r).spanMapping = s.spanMapping ∧
          (_endSpan t holder2.span r).nextSpan = s.nextSpan := by
        intro t hm hn hsp
        have hrt : lookupRun t r = some holder2 := by
          rw [lookupRun, hm]
          exact hrr
        refine ⟨spanEnded_endSpan_self holder2.span r hrt (by rw [hsp]; exact hp), ?_, ?_⟩
        · rw [endSpan_spanMapping, hm]
        · rw [endSpan_nextSpan, hn]
      apply hmain
      · simp [apply_ite HState.spanMapping, setSpanAttribute_spanMapping]
      · simp [apply_ite HState.nextSpan, setSpanAttribute_nextSpan]
      · simp [apply_ite (fun t : HState => (lookupSpan t holder2.span).isSome),
          isSome_lookupSpan_setSpanAttribute]

theorem handleLLMEnd_id (out : JValue) (r : String) (s : HState) (holder : SpanHolder)
    (hr : lookupRun s r = some holder) (hdead : deadSpan s holder.span)
    (hch : ∀ c ∈ holder.children, ∀ ch, lookupRun s c = some ch → deadSpan s ch.span) :
    handleLLMEnd false out r s = s := by
  unfold handleLLMEnd
  rw [if_neg (by decide)]
  cases hrr : lookupRun s r with
  | none => rfl
  | some holder2 =>
      rw [hrr] at hr
      injection hr with hh
      subst hh
      have hd : ∀ k v, _setSpanAttribute s holder2.span k v = s :=
        fun k v => setSpanAttribute_dead k v hdead
      have hend : _endSpan s holder2.span r = s := by
        refine endSpan_id s holder2.span r hdead ?_
        intro h2 hh2
        rw [hrr] at hh2
        injection hh2 with hh3
        subst hh3
        exact hch
      simp [hd, hend]

/-- C1 counterexample: after a start event and an end event for the same
runId (root LLM execution, unsuppressed), the record for that runId is
still present on the live-lookup path (spanMapping) — the source never
deletes it — contradicting the claim that a finalized record is absent
from the live-lookup path. -/
theorem C1_counterexample_record_still_present :
    (lookupRun
      (handleLLMEnd false (vObj []) "r"
        (handleLLMStart false (vObj []) "r" none none none initState)) "r").isSome = true := by
  rfl

theorem handleLLMEnd_ended_frame (out : JValue) (r : String) (s : HState)
    (holder : SpanHolder) (hr : lookupRun s r = some holder)
    (hch : holder.children = []) (q : Nat) (hq : q ≠ holder.span) :
    spanEnded (handleLLMEnd false out r s) q = spanEnded s q := by
  unfold handleLLMEnd
  rw [if_neg (by decide)]
  cases hrr : lookupRun s r with
  | none => rfl
  | some holder2 =>
      rw [hrr] at hr
      injection hr with hh
      subst hh
      have hmain : ∀ t : HState, t.spanMapping = s.spanMapping →
          (∀ q2, spanEnded t q2 = spanEnded s q2) →
          spanEnded (_endSpan t holder2.span r) q = spanEnded s q := by
        intro t hm hsp
        unfold _endSpan
        rw [show lookupRun t r = some holder2 from by rw [lookupRun, hm]; exact hrr]
        show spanEnded (spanEndOp (holder2.children.foldl closeChildSpan t) holder2.span) q = _
        rw [hch, List.foldl_nil, spanEnded, lookupSpan_spanEndOp_ne t hq]
        exact hsp q
      apply hmain
      · simp [apply_ite HState.spanMapping, setSpanAttribute_spanMapping]
      · intro q2
        simp [apply_ite (fun t : HState => spanEnded t q2), spanEnded_setSpanAttribute]


/-- C1 amended: for every start then end with matching runId (root LLM
execution, unsuppressed), the start allocates exactly one span, the end
allocates none, marks exactly the created span ended (every other span's
ended state is untouched), and a second end event for the same runId
leaves the whole state unchanged (closing twice has the effect of once,
because the tracing backend drops mutations of ended spans); however the
record is not removed from spanMapping — the live-lookup path still finds
it after closing, so later events for the runId are ignored only by
virtue of the ended span, not record removal. -/
theorem C1_amended_close_idempotent_record_persists
    (s : HState) (llm out : JValue) (ep md : Option JValue) (r : String) :
    (handleLLMStart false llm r none ep md s).nextSpan = s.nextSpan + 1 ∧
    (handleLLMEnd false out r (handleLLMStart false llm r none ep md s)).nextSpan
      = (handleLLMStart false llm r none ep md s).nextSpan ∧
    spanEnded (handleLLMEnd false out r (handleLLMStart false llm r none ep md s)) s.nextSpan
      = true ∧
    handleLLMEnd false out r
        (handleLLMEnd false out r (handleLLMStart false llm r none ep md s))
      = handleLLMEnd false out r (handleLLMStart false llm r none ep md s) ∧
    (∀ q, q ≠ s.nextSpan →
      spanEnded (handleLLMEnd false out r (handleLLMStart false llm r none ep md s)) q
        = spanEnded (handleLLMStart false llm r none ep md s) q) ∧
    (lookupRun (handleLLMEnd false out r (handleLLMStart false llm r none ep md s)) r).isSome
      = true := by
  obtain ⟨hn, hshape, hsp⟩ := handleLLMStart_none_spec llm ep md r s
  set s1 := handleLLMStart false llm r none ep md s with hs1
  obtain ⟨holder, hr1, hspan, hchildren⟩ :
      ∃ holder, lookupRun s1 r = some holder ∧ holder.span = s.nextSpan ∧
        holder.children = [] := by
    cases hl : lookupRun s1 r with
    | none => rw [hl] at hshape; cases hshape
    | some h0 =>
        rw [hl] at hshape
        simp at hshape
        exact ⟨h0, rfl, hshape.1, hshape.2⟩
  have hp : (lookupSpan s1 holder.span).isSome = true := by
    rw [hspan]; exact hsp
  obtain ⟨hend, hmap, hnext⟩ := handleLLMEnd_closes out r s1 holder hr1 hp
  set s2 := handleLLMEnd false out r s1 with hs2
  have hr2 : lookupRun s2 r = some holder := by
    rw [lookupRun, hmap]; exact hr1
  have hdead2 : deadSpan s2 holder.span := deadSpan_of_spanEnded hend
  refine ⟨hn, hnext, by rw [← hspan]; exact hend, ?_, ?_, ?_⟩
  · exact handleLLMEnd_id out r s2 holder hr2 hdead2
      (by rw [hchildren]; intro c hc; cases hc)
  · intro q hq
    exact handleLLMEnd_ended_frame out r s1 holder hr1 hchildren q (by rw [hspan]; exact hq)
  · rw [hr2]; rfl

/-- C2 counterexample: with the suppression flag active, handleAgentAction
still modifies the span of an existing record (the source never checks the
flag there): the agent tool-name attribute appears on the span even though
the call was made under suppression, so the call is not a no-op. -/
theorem C2_counterexample_agent_action_ignores_suppression :
    lookupAttr
      (handleAgentAction true (vObj [("tool", vStr "calc"), ("toolInput", vStr "2+2")]) "r"
        (handleLLMStart false (vObj []) "r" none none none initState))
      0 "gen_ai.agent.tool.name" = some (vStr "calc") ∧
    lookupAttr (handleLLMStart false (vObj []) "r" none none none initState)
      0 "gen_ai.agent.tool.name" = none := by
  constructor <;> rfl

/-- C2 amended: every start/end/error handler is a complete no-op when the
suppression flag is set — the state, and in particular spanMapping, is
returned unchanged — but the agent action/finish handlers never consult
the flag: they may enrich an existing span's attributes even under
suppression, while still never creating or closing any span and never
changing spanMapping. -/
theorem C2_amended_suppression_noop_except_agent_handlers :
    (∀ llm r p ep md s, handleChatModelStart true llm r p ep md s = s) ∧
    (∀ llm r p ep md s, handleLLMStart true llm r p ep md s = s) ∧
    (∀ out r s, handleLLMEnd true out r s = s) ∧
    (∀ m r s, handleLLMError true m r s = s) ∧
    (∀ c inp r p md s, handleChainStart true c inp r p md s = s) ∧
    (∀ out r s, handleChainEnd true out r s = s) ∧
    (∀ m r s, handleChainError true m r s = s) ∧
    (∀ tool inp r p md s, handleToolStart true tool inp r p md s = s) ∧
    (∀ out r s, handleToolEnd true out r s = s) ∧
    (∀ m r s, handleToolError true m r s = s) ∧
    (∀ b act r s, (handleAgentAction b act r s).spanMapping = s.spanMapping ∧
      (handleAgentAction b act r s).nextSpan = s.nextSpan ∧
      ∀ q, spanEnded (handleAgentAction b act r s) q = spanEnded s q) ∧
    (∀ b act r s, (handleAgentEnd b act r s).spanMapping = s.spanMapping ∧
      (handleAgentEnd b act r s).nextSpan = s.nextSpan ∧
      ∀ q, spanEnded (handleAgentEnd b act r s) q = spanEnded s q) := by
  refine ⟨fun _ _ _ _ _ _ => rfl, fun _ _ _ _ _ _ => rfl, fun _ _ _ => rfl,
    fun _ _ _ => rfl, fun _ _ _ _ _ _ => rfl, fun _ _ _ => rfl, fun _ _ _ => rfl,
    fun _ _ _ _ _ _ => rfl, fun _ _ _ => rfl, fun _ _ _ => rfl, ?_, ?_⟩
  · intro b act r s
    unfold handleAgentAction
    cases lookupRun s r with
    | none => exact ⟨rfl, rfl, fun q => rfl⟩
    | some holder =>
        refine ⟨?_, ?_, ?_⟩
        · simp only [setSpanAttribute_spanMapping]
        · simp only [setSpanAttribute_nextSpan]
        · intro q
          simp only [spanEnded_setSpanAttribute]
  · intro b act r s
    unfold handleAgentEnd
    cases lookupRun s r with
    | none => exact ⟨rfl, rfl, fun q => rfl⟩
    | some holder =>
        refine ⟨?_, ?_, ?_⟩
        · simp only [setSpanAttribute_spanMapping]
        · simp only [setSpanAttribute_nextSpan]
        · intro q
          simp only [spanEnded_setSpanAttribute]

/-- C3: closing the execution for runId via _endSpan ends that record's
span and the span of every identifier still present in its children list;
a child whose span is already closed is left untouched (no error, no
double-report); every span other than the record's own and its direct
children's — in particular any grandchild's — is unchanged, so the
cascade is exactly one level deep; the registry is not modified. -/
theorem C3_cascading_close_one_level (s : HState) (r : String) (holder : SpanHolder)
    (hr : lookupRun s r = some holder)
    (hp : (lookupSpan s holder.span).isSome = true) :
    spanEnded (_endSpan s holder.span r) holder.span = true ∧
    (∀ c ∈ holder.children, ∀ ch, lookupRun s c = some ch →
      (lookupSpan s ch.span).isSome = true →
      spanEnded (_endSpan s holder.span r) ch.span = true) ∧
    (∀ c ∈ holder.children, ∀ ch, lookupRun s c = some ch →
      spanEnded s ch.span = true →
      lookupSpan (_endSpan s holder.span r) ch.span = lookupSpan s ch.span) ∧
    (∀ sid, sid ≠ holder.span →
      (∀ c ∈ holder.children, ∀ ch, lookupRun s c = some ch → sid ≠ ch.span) →
      lookupSpan (_endSpan s holder.span r) sid = lookupSpan s sid) ∧
    (_endSpan s holder.span r).spanMapping = s.spanMapping := by
  refine ⟨spanEnded_endSpan_self holder.span r hr hp, ?_, ?_, ?_,
    endSpan_spanMapping s holder.span r⟩
  · intro c hc ch hch hcp
    unfold _endSpan
    rw [hr]
    exact spanEnded_spanEndOp_mono (spanEnded_closeChildren_of_mem holder.children hc hch hcp)
  · intro c hc ch hch hce
    unfold _endSpan
    rw [hr]
    have hf : spanEnded (holder.children.foldl closeChildSpan s) ch.span = true :=
      spanEnded_closeChildren_mono holder.children hce
    rw [lookupSpan_spanEndOp_of_ended hf,
      lookupSpan_closeChildren_of_ended holder.children hce]
  · intro sid hne hframe
    unfold _endSpan
    rw [hr]
    rw [lookupSpan_spanEndOp_ne _ hne, lookupSpan_closeChildren_frame holder.children hframe]

/-- C3 witness: a concrete parent record p with children c1 (already
closed) and c2 (still open): closing p ends p's span, ends c2's span, and
leaves c1's already-closed span untouched. -/
theorem C3_cascading_close_one_level_witness :
    spanEnded
      (_endSpan
        { spans := [(0, { name := "p", kind := .internal, parent := none, attrs := [],
                          status := .unset, events := [], ended := false }),
                    (1, { name := "c1", kind := .internal, parent := some 0, attrs := [],
                          status := .unset, events := [], ended := true }),
                    (2, { name := "c2", kind := .internal, parent := some 0, attrs := [],
                          status := .unset, events := [], ended := false })],
          nextSpan := 3,
          spanMapping := [("p", { span := 0, children := ["c1", "c2"],
                                  requestModel := vStr "unknown" }),
                          ("c1", { span := 1, children := [],
                                   requestModel := vStr "unknown" }),
                          ("c2", { span := 2, children := [],
                                   requestModel := vStr "unknown" })] }
        0 "p") 0 = true ∧
    spanEnded
      (_endSpan
        { spans := [(0, { name := "p", kind := .internal, parent := none, attrs := [],
                          status := .unset, events := [], ended := false }),
                    (1, { name := "c1", kind := .internal, parent := some 0, attrs := [],
                          status := .unset, events := [], ended := true }),
                    (2, { name := "c2", kind := .internal, parent := some 0, attrs := [],
                          status := .unset, events := [], ended := false })],
          nextSpan := 3,
          spanMapping := [("p", { span := 0, children := ["c1", "c2"],
                                  requestModel := vStr "unknown" }),
                          ("c1", { span := 1, children := [],
                                   requestModel := vStr "unknown" }),
                          ("c2", { span := 2, children := [],
                                   requestModel := vStr "unknown" })] }
        0 "p") 2 = true ∧
    lookupSpan
      (_endSpan
        { spans := [(0, { name := "p", kind := .internal, parent := none, attrs := [],
                          status := .unset, events := [], ended := false }),
                    (1, { name := "c1", kind := .internal, parent := some 0, attrs := [],
                          status := .unset, events := [], ended := true }),
                    (2, { name := "c2", kind := .internal, parent := some 0, attrs := [],
                          status := .unset, events := [], ended := false })],
          nextSpan := 3,
          spanMapping := [("p", { span := 0, children := ["c1", "c2"],
                                  requestModel := vStr "unknown" }),
                          ("c1", { span := 1, children := [],
                                   requestModel := vStr "unknown" }),
                          ("c2", { span := 2, children := [],
                                   requestModel := vStr "unknown" })] }
        0 "p") 1 =
      some { name := "c1", kind := .internal, parent := some 0, attrs := [],
             status := .unset, events := [], ended := true } := by
  have h := C3_cascading_close_one_level
    { spans := [(0, { name := "p", kind := .internal, parent := none, attrs := [],
                      status := .unset, events := [], ended := false }),
                (1, { name := "c1", kind := .internal, parent := some 0, attrs := [],
                      status := .unset, events := [], ended := true }),
                (2, { name := "c2", kind := .internal, parent := some 0, attrs := [],
                      status := .unset, events := [], ended := false })],
      nextSpan := 3,
      spanMapping := [("p", { span := 0, children := ["c1", "c2"],
                              requestModel := vStr "unknown" }),
                      ("c1", { span := 1, children := [],
                               requestModel := vStr "unknown" }),
                      ("c2", { span := 2, children := [],
                               requestModel := vStr "unknown" })] }
    "p" { span := 0, children := ["c1", "c2"], requestModel := vStr "unknown" }
    (by rfl) (by rfl)
  refine ⟨h.1, ?_, ?_⟩
  · exact h.2.1 "c2" (by simp)
      { span := 2, children := [], requestModel := vStr "unknown" } (by rfl) (by rfl)
  · have h3 := h.2.2.1 "c1" (by simp)
      { span := 1, children := [], requestModel := vStr "unknown" } (by rfl) (by rfl)
    rw [h3]
    rfl

theorem createSpan_sid (s : HState) (rid : String) (p : Option String) (nm : String)
    (k : SpanKind) (md : Option JValue) : (_createSpan s rid p nm k md).2 = s.nextSpan := rfl

theorem createSpan_new_span (s : HState) (rid : String) (p : Option String) (nm : String)
    (k : SpanKind) (md : Option JValue) :
    lookupSpan (_createSpan s rid p nm k md).1 s.nextSpan =
      some { name := nm, kind := k,
             parent :=
               if parentTruthy p then
                 match p with
                 | some q => (lookupEntry s.spanMapping q).map SpanHolder.span
                 | none => none
               else none,
             attrs := [], status := .unset, events := [], ended := false } := by
  unfold _createSpan lookupSpan
  rw [lookupEntry_setEntry_self]

theorem createSpan_mapping (s : HState) (rid : String) (p : Option String) (nm : String)
    (k : SpanKind) (md : Option JValue) :
    (_createSpan s rid p nm k md).1.spanMapping =
      (if parentTruthy p then
        match p with
        | some q =>
          if (lookupEntry (setEntry s.spanMapping rid
              { span := s.nextSpan, children := [],
                requestModel := createSpanModelId (orEmptyObj md) }) q).isSome then
            updateEntry (setEntry s.spanMapping rid
              { span := s.nextSpan, children := [],
                requestModel := createSpanModelId (orEmptyObj md) }) q
              fun h => { h with children := h.children ++ [rid] }
          else setEntry s.spanMapping rid
            { span := s.nextSpan, children := [],
              requestModel := createSpanModelId (orEmptyObj md) }
        | none => setEntry s.spanMapping rid
            { span := s.nextSpan, children := [],
              requestModel := createSpanModelId (orEmptyObj md) }
      else setEntry s.spanMapping rid
        { span := s.nextSpan, children := [],
          requestModel := createSpanModelId (orEmptyObj md) }) := rfl

/-- C4 counterexample: a start event whose parentRunId equals its own runId
on an empty registry: at that moment no record for parentRunId exists and
the span is indeed created as a root (parent none), yet a children list IS
modified — the freshly inserted record's own children receives the runId,
because the source re-checks spanMapping.has(parentRunId) after inserting
the new record. -/
theorem C4_counterexample_self_parent_modifies_children :
    lookupRun initState "r" = none ∧
    ((lookupRun (_createSpan initState "r" (some "r") "nm" .internal none).1 "r").map
      fun h => h.children) = some ["r"] ∧
    ((lookupSpan (_createSpan initState "r" (some "r") "nm" .internal none).1 0).map
      SpanData.parent) = some none := by
  refine ⟨rfl, ?_, ?_⟩ <;> rfl

/-- C4 amended: for every start event carrying a non-empty parentRunId
different from its own runId: when a live record for parentRunId exists,
the new span is parented to that record's span, runId is appended to the
parent's children, the new record starts with empty children, and every
other record is untouched; when no such record exists, the span is a root,
the new record starts with empty children, and no other record (hence no
children list) is modified. In the degenerate case runId = parentRunId
with no pre-existing record (excluded here), the source appends runId to
the freshly inserted record's own children. -/
theorem C4_amended_parent_linking (s : HState) (rid pid nm : String) (k : SpanKind)
    (md : Option JValue) (hne : rid ≠ pid) (hpe : pid ≠ "") :
    (match lookupRun s pid with
     | some ph =>
        ((lookupSpan (_createSpan s rid (some pid) nm k md).1
            (_createSpan s rid (some pid) nm k md).2).map SpanData.parent)
          = some (some ph.span) ∧
        lookupRun (_createSpan s rid (some pid) nm k md).1 pid
          = some { ph with children := ph.children ++ [rid] } ∧
        ((lookupRun (_createSpan s rid (some pid) nm k md).1 rid).map fun h => h.children)
          = some ([] : List String) ∧
        (∀ q, q ≠ rid → q ≠ pid →
          lookupRun (_createSpan s rid (some pid) nm k md).1 q = lookupRun s q)
     | none =>
        ((lookupSpan (_createSpan s rid (some pid) nm k md).1
            (_createSpan s rid (some pid) nm k md).2).map SpanData.parent)
          = some none ∧
        ((lookupRun (_createSpan s rid (some pid) nm k md).1 rid).map fun h => h.children)
          = some ([] : List String) ∧
        (∀ q, q ≠ rid →
          lookupRun (_createSpan s rid (some pid) nm k md).1 q = lookupRun s q)) := by
  have hpt : parentTruthy (some pid) = true := by
    simp [parentTruthy, hpe]
  cases hl : lookupRun s pid with
  | some ph =>
      rw [lookupRun] at hl
      have hm1 : lookupEntry (setEntry s.spanMapping rid
          { span := s.nextSpan, children := [],
            requestModel := createSpanModelId (orEmptyObj md) }) pid = some ph := by
        rw [lookupEntry_setEntry_ne _ _ (Ne.symm hne)]
        exact hl
      refine ⟨?_, ?_, ?_, ?_⟩
      · rw [createSpan_sid, createSpan_new_span]
        simp [hpt, hl]
      · rw [lookupRun, createSpan_mapping]
        simp [hpt, hm1, lookupEntry_updateEntry_self]
      · rw [lookupRun, createSpan_mapping]
        simp [hpt, hm1, lookupEntry_updateEntry_ne _ _ hne, lookupEntry_setEntry_self]
      · intro q hqr hqp
        rw [lookupRun, createSpan_mapping, lookupRun]
        simp only [hpt, if_true]
        rw [hm1]
        simp only [Option.isSome_some, if_true]
        rw [lookupEntry_updateEntry_ne _ _ hqp, lookupEntry_setEntry_ne _ _ hqr]
  | none =>
      rw [lookupRun] at hl
      have hm1 : lookupEntry (setEntry s.spanMapping rid
          { span := s.nextSpan, children := [],
            requestModel := createSpanModelId (orEmptyObj md) }) pid = none := by
        rw [lookupEntry_setEntry_ne _ _ (Ne.symm hne)]
        exact hl
      refine ⟨?_, ?_, ?_⟩
      · rw [createSpan_sid, createSpan_new_span]
        simp [hpt, hl]
      · rw [lookupRun, createSpan_mapping]
        simp [hpt, hm1, lookupEntry_setEntry_self]
      · intro q hqr
        rw [lookupRun, createSpan_mapping, lookupRun]
        simp only [hpt, if_true]
        rw [hm1]
        simp only [Option.isSome_none, Bool.false_eq_true, if_false]
        rw [lookupEntry_setEntry_ne _ _ hqr]

/-- C4 witness: with a live record for parent p, starting child c with
parentRunId p parents the new span to p's span and appends c to p's
children. -/
theorem C4_amended_parent_linking_witness :
    ((lookupSpan
        (_createSpan
          { spans := [(0, { name := "pn", kind := .internal, parent := none, attrs := [],
                            status := .unset, events := [], ended := false })],
            nextSpan := 1,
            spanMapping := [("p", { span := 0, children := [],
                                    requestModel := vStr "unknown" })] }
          "c" (some "p") "nm" .internal none).1
        (_createSpan
          { spans := [(0, { name := "pn", kind := .internal, parent := none, attrs := [],
                            status := .unset, events := [], ended := false })],
            nextSpan := 1,
            spanMapping := [("p", { span := 0, children := [],
                                    requestModel := vStr "unknown" })] }
          "c" (some "p") "nm" .internal none).2).map SpanData.parent) = some (some 0) ∧
    lookupRun
      (_createSpan
        { spans := [(0, { name := "pn", kind := .internal, parent := none, attrs := [],
                          status := .unset, events := [], ended := false })],
          nextSpan := 1,
          spanMapping := [("p", { span := 0, children := [],
                                  requestModel := vStr "unknown" })] }
        "c" (some "p") "nm" .internal none).1 "p"
      = some { span := 0, children := ["c"], requestModel := vStr "unknown" } := by
  have h := C4_amended_parent_linking
    { spans := [(0, { name := "pn", kind := .internal, parent := none, attrs := [],
                      status := .unset, events := [], ended := false })],
      nextSpan := 1,
      spanMapping := [("p", { span := 0, children := [],
                              requestModel := vStr "unknown" })] }
    "c" "p" "nm" .internal none (by decide) (by decide)
  exact ⟨h.1, h.2.1⟩

theorem lookupAttr_setSpanAttribute_ne_key (s : HState) (sid : Nat) (k : String) (v : JValue)
    (q : Nat) (key : String) (hk : key ≠ k) :
    lookupAttr (_setSpanAttribute s sid k v) q key = lookupAttr s q key := by
  unfold _setSpanAttribute
  split
  · by_cases hq : q = sid
    · subst hq
      cases hd : lookupEntry s.spans q with
      | none =>
          simp [lookupAttr, lookupSpan, spanSetAttrOp, lookupEntry_updateEntry_self, hd]
      | some d =>
          by_cases he : d.ended <;>
            simp [lookupAttr, lookupSpan, spanSetAttrOp, lookupEntry_updateEntry_self, hd, he,
              lookupEntry_setEntry_ne _ _ hk]
    · simp [lookupAttr, lookupSpan, spanSetAttrOp, lookupEntry_updateEntry_ne _ _ hq]
  · rfl

theorem setSpanAttribute_undef (s : HState) (sid : Nat) (k : String) :
    _setSpanAttribute s sid k vUndefined = s := rfl

/-- Modelled from the spec's words, for comparison with the code (claim
C5): search the direct payload fields model_id then base_model_id, then
the same keys nested one level under invocation_params, first match (a
value present, i.e. not undefined) wins. -/
def specOrderModelSearch (kwargs : JValue) : Option JValue :=
  if !(getField kwargs "model_id").isUndef then some (getField kwargs "model_id")
  else if !(getField kwargs "base_model_id").isUndef then some (getField kwargs "base_model_id")
  else if !(getField (getField kwargs "invocation_params") "model_id").isUndef then
    some (getField (getField kwargs "invocation_params") "model_id")
  else if !(getField (getField kwargs "invocation_params") "base_model_id").isUndef then
    some (getField (getField kwargs "invocation_params") "base_model_id")
  else none

/-- C5 counterexample: on the payload with a direct base_model_id "b" and
a nested model_id "a", the claimed priority order (direct model_id, direct
base_model_id, then the nested keys) resolves "b", but the code's loop
tries each key first directly and then nested before moving to the next
key, so it resolves "a" and emits gen_ai.request.model = "a". -/
theorem C5_counterexample_interleaved_priority :
    findModelTag (vObj [("base_model_id", vStr "b"),
        ("invocation_params", vObj [("model_id", vStr "a")])]) = some (vStr "a") ∧
    specOrderModelSearch (vObj [("base_model_id", vStr "b"),
        ("invocation_params", vObj [("model_id", vStr "a")])]) = some (vStr "b") ∧
    lookupAttr
      (_setRequestParams
        { spans := [(0, { name := "n", kind := .internal, parent := none, attrs := [],
                          status := .unset, events := [], ended := false })],
          nextSpan := 1,
          spanMapping := [("r", { span := 0, children := [],
                                  requestModel := vStr "unknown" })] }
        0
        (vObj [("base_model_id", vStr "b"),
          ("invocation_params", vObj [("model_id", vStr "a")])])
        "r")
      0 Span_Attributes.GEN_AI_REQUEST_MODEL = some (vStr "a") := by
  refine ⟨rfl, rfl, rfl⟩

/-- C5 amended: the code's model search is per-key with the direct field
tried before the nested one for each key in turn: model_id direct, then
model_id under invocation_params, then base_model_id direct, then
base_model_id under invocation_params; the first value that is not
undefined wins. On the claim's example payload the resolved model is "a",
and when no key matches, _setRequestParams emits neither the request-model
nor the response-model attribute (the 'unknown' placeholder lives only in
the holder's requestModel, used for naming). -/
theorem C5_amended_model_resolution (kw : JValue) (s : HState) (sid : Nat) (rid : String) :
    ((getField kw "model_id").isUndef = false →
      findModelTag kw = some (getField kw "model_id")) ∧
    ((getField kw "model_id").isUndef = true →
      (getField (jsOr (getField kw "invocation_params") (vObj [])) "model_id").isUndef = false →
      findModelTag kw = some (getField (getField kw "invocation_params") "model_id")) ∧
    ((getField kw "model_id").isUndef = true →
      (getField (jsOr (getField kw "invocation_params") (vObj [])) "model_id").isUndef = true →
      (getField kw "base_model_id").isUndef = false →
      findModelTag kw = some (getField kw "base_model_id")) ∧
    ((getField kw "model_id").isUndef = true →
      (getField (jsOr (getField kw "invocation_params") (vObj [])) "model_id").isUndef = true →
      (getField kw "base_model_id").isUndef = true →
      (getField (jsOr (getField kw "invocation_params") (vObj [])) "base_model_id").isUndef
        = false →
      findModelTag kw = some (getField (getField kw "invocation_params") "base_model_id")) ∧
    findModelTag (vObj [("invocation_params",
      vObj [("model_id", vStr "a"), ("base_model_id", vStr "b")])]) = some (vStr "a") ∧
    (findModelTag kw = none →
      lookupAttr (_setRequestParams s sid kw rid) sid Span_Attributes.GEN_AI_REQUEST_MODEL
        = lookupAttr s sid Span_Attributes.GEN_AI_REQUEST_MODEL ∧
      lookupAttr (_setRequestParams s sid kw rid) sid Span_Attributes.GEN_AI_RESPONSE_MODEL
        = lookupAttr s sid Span_Attributes.GEN_AI_RESPONSE_MODEL) := by
  refine ⟨?_, ?_, ?_, ?_, rfl, ?_⟩
  · intro h1
    unfold findModelTag tryModelTag
    rw [h1]
    rfl
  · intro h1 h2
    unfold findModelTag tryModelTag
    rw [h1, h2]
    rfl
  · intro h1 h2 h3
    unfold findModelTag tryModelTag
    rw [h1, h2, h3]
    rfl
  · intro h1 h2 h3 h4
    unfold findModelTag tryModelTag
    rw [h1, h2, h3, h4]
    rfl
  · intro h0
    unfold _setRequestParams
    cases hr : lookupRun s rid with
    | none => exact ⟨rfl, rfl⟩
    | some holder =>
        rw [h0]
        constructor
        · rw [lookupAttr_setSpanAttribute_ne_key _ _ _ _ _ _ (by decide),
            lookupAttr_setSpanAttribute_ne_key _ _ _ _ _ _ (by decide),
            lookupAttr_setSpanAttribute_ne_key _ _ _ _ _ _ (by decide)]
          cases hu : holder.requestModel.isUndef <;>
            simp [hu, setSpanAttribute_undef, lookupAttr, lookupSpan]
        · rw [lookupAttr_setSpanAttribute_ne_key _ _ _ _ _ _ (by decide),
            lookupAttr_setSpanAttribute_ne_key _ _ _ _ _ _ (by decide),
            lookupAttr_setSpanAttribute_ne_key _ _ _ _ _ _ (by decide)]
          cases hu : holder.requestModel.isUndef <;>
            simp [hu, setSpanAttribute_undef, lookupAttr, lookupSpan]

/-- C5 witness: a direct model_id wins immediately. -/
theorem C5_amended_model_resolution_witness :
    findModelTag (vObj [("model_id", vStr "m")]) = some (vStr "m") := by
  have h := (C5_amended_model_resolution (vObj [("model_id", vStr "m")]) initState 0 "r").1
    (by rfl)
  rw [h]
  rfl

/-- C6: _setSpanAttribute on a live span sets the attribute exactly when
the value is present (not undefined), not null and not the empty string,
and otherwise leaves the span's attributes unchanged; concretely, a start
payload with temperature null and top_p absent yields a span carrying
neither gen_ai.request.temperature nor gen_ai.request.top_p, while
temperature 0.7 yields gen_ai.request.temperature = 0.7. -/
theorem C6_attribute_set_iff_present (st : HState) (sid : Nat) (d : SpanData) (key : String)
    (v : JValue) (hd : lookupSpan st sid = some d) (hopen : d.ended = false) :
    lookupAttr (_setSpanAttribute st sid key v) sid key =
      (if (!v.isUndef && !v.isNull && !v.isEmptyStr) = true then some v
       else lookupAttr st sid key) ∧
    lookupAttr
      (handleLLMStart false (vObj []) "r" none
        (some (vObj [("invocation_params", vObj [("temperature", vNull)])])) none initState)
      0 Span_Attributes.GEN_AI_REQUEST_TEMPERATURE = none ∧
    lookupAttr
      (handleLLMStart false (vObj []) "r" none
        (some (vObj [("invocation_params", vObj [("temperature", vNull)])])) none initState)
      0 Span_Attributes.GEN_AI_REQUEST_TOP_P = none ∧
    lookupAttr
      (handleLLMStart false (vObj []) "r" none
        (some (vObj [("invocation_params", vObj [("temperature", vNum (7/10))])])) none
        initState)
      0 Span_Attributes.GEN_AI_REQUEST_TEMPERATURE = some (vNum (7/10)) := by
  refine ⟨?_, rfl, rfl, rfl⟩
  by_cases hg : (!v.isUndef && !v.isNull && !v.isEmptyStr) = true
  · rw [if_pos hg]
    unfold _setSpanAttribute
    rw [if_pos hg]
    simp [lookupAttr, lookupSpan, spanSetAttrOp, lookupEntry_updateEntry_self,
      show lookupEntry st.spans sid = some d from hd, hopen, lookupEntry_setEntry_self]
  · rw [if_neg hg]
    unfold _setSpanAttribute
    rw [if_neg hg]

/-- C6 witness: a concrete live span, set with a numeric value. -/
theorem C6_attribute_set_iff_present_witness :
    lookupAttr
      (_setSpanAttribute
        { spans := [(0, { name := "n", kind := .internal, parent := none, attrs := [],
                          status := .unset, events := [], ended := false })],
          nextSpan := 1, spanMapping := [] }
        0 Span_Attributes.GEN_AI_REQUEST_TEMPERATURE (vNum (7/10)))
      0 Span_Attributes.GEN_AI_REQUEST_TEMPERATURE = some (vNum (7/10)) := by
  have h := (C6_attribute_set_iff_present
    { spans := [(0, { name := "n", kind := .internal, parent := none, attrs := [],
                      status := .unset, events := [], ended := false })],
      nextSpan := 1, spanMapping := [] }
    0 { name := "n", kind := .internal, parent := none, attrs := [],
        status := .unset, events := [], ended := false }
    Span_Attributes.GEN_AI_REQUEST_TEMPERATURE (vNum (7/10)) (by rfl) (by rfl)).1
  rw [h]
  rfl

/-- C7: token-usage extraction tries the synonyms in the order
prompt_tokens, input_token_count, input_tokens (input direction) and
completion_tokens, generated_token_count, output_tokens (output
direction), the first truthy match winning; the two example payloads
yield input/output attributes 12/34 and input attribute 5 (with no output
attribute for the second). -/
theorem C7_token_usage_synonym_order (u : JValue) :
    (jsTruthy (getField u "prompt_tokens") = true →
      promptTokensOf u = getField u "prompt_tokens") ∧
    (jsTruthy (getField u "prompt_tokens") = false →
      jsTruthy (getField u "input_token_count") = true →
      promptTokensOf u = getField u "input_token_count") ∧
    (jsTruthy (getField u "prompt_tokens") = false →
      jsTruthy (getField u "input_token_count") = false →
      promptTokensOf u = getField u "input_tokens") ∧
    (jsTruthy (getField u "completion_tokens") = true →
      completionTokensOf u = getField u "completion_tokens") ∧
    (jsTruthy (getField u "completion_tokens") = false →
      jsTruthy (getField u "generated_token_count") = true →
      completionTokensOf u = getField u "generated_token_count") ∧
    (jsTruthy (getField u "completion_tokens") = false →
      jsTruthy (getField u "generated_token_count") = false →
      completionTokensOf u = getField u "output_tokens") ∧
    lookupAttr
      (handleLLMEnd false
        (vObj [("llmOutput", vObj [("usage",
          vObj [("input_tokens", vNum 12), ("output_tokens", vNum 34)])])]) "r"
        (handleLLMStart false (vObj []) "r" none none none initState))
      0 Span_Attributes.GEN_AI_USAGE_INPUT_TOKENS = some (vNum 12) ∧
    lookupAttr
      (handleLLMEnd false
        (vObj [("llmOutput", vObj [("usage",
          vObj [("input_tokens", vNum 12), ("output_tokens", vNum 34)])])]) "r"
        (handleLLMStart false (vObj []) "r" none none none initState))
      0 Span_Attributes.GEN_AI_USAGE_OUTPUT_TOKENS = some (vNum 34) ∧
    lookupAttr
      (handleLLMEnd false
        (vObj [("llmOutput", vObj [("token_usage",
          vObj [("prompt_tokens", vNum 5)])])]) "r"
        (handleLLMStart false (vObj []) "r" none none none initState))
      0 Span_Attributes.GEN_AI_USAGE_INPUT_TOKENS = some (vNum 5) ∧
    lookupAttr
      (handleLLMEnd false
        (vObj [("llmOutput", vObj [("token_usage",
          vObj [("prompt_tokens", vNum 5)])])]) "r"
        (handleLLMStart false (vObj []) "r" none none none initState))
      0 Span_Attributes.GEN_AI_USAGE_OUTPUT_TOKENS = none := by
  refine ⟨?_, ?_, ?_, ?_, ?_, ?_, rfl, rfl, rfl, rfl⟩
  · intro h1
    unfold promptTokensOf jsOr
    rw [h1]
    rfl
  · intro h1 h2
    unfold promptTokensOf jsOr
    rw [h1, h2]
    rfl
  · intro h1 h2
    unfold promptTokensOf jsOr
    rw [h1, h2]
    rfl
  · intro h1
    unfold completionTokensOf jsOr
    rw [h1]
    rfl
  · intro h1 h2
    unfold completionTokensOf jsOr
    rw [h1, h2]
    rfl
  · intro h1 h2
    unfold completionTokensOf jsOr
    rw [h1, h2]
    rfl

/-- C7 witness: a truthy prompt_tokens wins over a later synonym. -/
theorem C7_token_usage_synonym_order_witness :
    promptTokensOf (vObj [("prompt_tokens", vNum 5), ("input_tokens", vNum 9)]) = vNum 5 := by
  have h := (C7_token_usage_synonym_order
    (vObj [("prompt_tokens", vNum 5), ("input_tokens", vNum 9)])).1 (by rfl)
  rw [h]
  rfl

/-- C10 counterexample: a usage block whose only synonym is a present 0
(all synonyms falsy: prompt_tokens and input_token_count are absent,
input_tokens is 0): the || chain yields the last synonym's value 0, which
passes the attribute guard, so gen_ai.usage.input_tokens IS set to 0 —
contradicting the claim that no token attribute is set when all synonyms
are falsy. -/
theorem C10_counterexample_all_falsy_still_sets_attribute :
    jsTruthy (getField (vObj [("input_tokens", vNum 0)]) "prompt_tokens") = false ∧
    jsTruthy (getField (vObj [("input_tokens", vNum 0)]) "input_token_count") = false ∧
    jsTruthy (getField (vObj [("input_tokens", vNum 0)]) "input_tokens") = false ∧
    lookupAttr
      (handleLLMEnd false
        (vObj [("llmOutput", vObj [("usage", vObj [("input_tokens", vNum 0)])])]) "r"
        (handleLLMStart false (vObj []) "r" none none none initState))
      0 Span_Attributes.GEN_AI_USAGE_INPUT_TOKENS = some (vNum 0) := by
  refine ⟨rfl, rfl, rfl, rfl⟩

/-- C10 amended: synonym selection uses JS ||, so a present falsy value
falls through: max_tokens 0 falls through to max_new_tokens, and
prompt_tokens 0 falls through to the remaining input synonyms; when every
synonym is falsy the chain yields the LAST synonym's value, and the
attribute is then set exactly when that value passes the attribute guard —
a present 0 is set (the guard accepts it), while an absent or null last
synonym yields no attribute. -/
theorem C10_amended_falsy_fallthrough (p u : JValue) :
    (getField p "max_tokens" = vNum 0 →
      maxTokensOf p = getField p "max_new_tokens") ∧
    (getField u "prompt_tokens" = vNum 0 →
      promptTokensOf u = jsOr (getField u "input_token_count") (getField u "input_tokens")) ∧
    (jsTruthy (getField u "prompt_tokens") = false →
      jsTruthy (getField u "input_token_count") = false →
      promptTokensOf u = getField u "input_tokens") ∧
    maxTokensOf (vObj [("max_tokens", vNum 0), ("max_new_tokens", vNum 256)]) = vNum 256 ∧
    lookupAttr
      (handleLLMEnd false
        (vObj [("llmOutput", vObj [("usage", vObj [("input_tokens", vNull)])])]) "r"
        (handleLLMStart false (vObj []) "r" none none none initState))
      0 Span_Attributes.GEN_AI_USAGE_INPUT_TOKENS = none := by
  refine ⟨?_, ?_, ?_, rfl, rfl⟩
  · intro h1
    unfold maxTokensOf jsOr
    rw [h1]
    rfl
  · intro h1
    unfold promptTokensOf jsOr
    rw [h1]
    rfl
  · intro h1 h2
    unfold promptTokensOf jsOr
    rw [h1, h2]
    rfl

/-- C10 witness: max_tokens 0 falls through to max_new_tokens. -/
theorem C10_amended_falsy_fallthrough_witness :
    maxTokensOf (vObj [("max_tokens", vNum 0), ("max_new_tokens", vNum 7)]) = vNum 7 := by
  have h := (C10_amended_falsy_fallthrough
    (vObj [("max_tokens", vNum 0), ("max_new_tokens", vNum 7)]) (vObj [])).1 (by rfl)
  rw [h]
  rfl

theorem spanStatusOf_spanSetAttrOp (s : HState) (sid : Nat) (k : String) (v : JValue)
    (q : Nat) : spanStatusOf (spanSetAttrOp s sid k v) q = spanStatusOf s q := by
  by_cases hq : q = sid
  · subst hq
    cases hd : lookupEntry s.spans q with
    | none => simp [spanStatusOf, lookupSpan, spanSetAttrOp, lookupEntry_updateEntry_self, hd]
    | some d =>
        by_cases he : d.ended <;>
          simp [spanStatusOf, lookupSpan, spanSetAttrOp, lookupEntry_updateEntry_self, hd, he]
  · simp [spanStatusOf, lookupSpan, spanSetAttrOp, lookupEntry_updateEntry_ne _ _ hq]

theorem spanStatusOf_setSpanAttribute (s : HState) (sid : Nat) (k : String) (v : JValue)
    (q : Nat) : spanStatusOf (_setSpanAttribute s sid k v) q = spanStatusOf s q := by
  unfold _setSpanAttribute
  split
  · exact spanStatusOf_spanSetAttrOp s sid k v q
  · rfl

theorem spanStatusOf_spanEndOp (s : HState) (sid q : Nat) :
    spanStatusOf (spanEndOp s sid) q = spanStatusOf s q := by
  by_cases hq : q = sid
  · subst hq
    cases hd : lookupEntry s.spans q with
    | none => simp [spanStatusOf, lookupSpan, spanEndOp, lookupEntry_updateEntry_self, hd]
    | some d => simp [spanStatusOf, lookupSpan, spanEndOp, lookupEntry_updateEntry_self, hd]
  · simp [spanStatusOf, lookupSpan, spanEndOp, lookupEntry_updateEntry_ne _ _ hq]

theorem spanStatusOf_closeChildSpan (acc : HState) (c : String) (q : Nat) :
    spanStatusOf (closeChildSpan acc c) q = spanStatusOf acc q := by
  unfold closeChildSpan
  cases lookupRun acc c with
  | none => rfl
  | some ch => exact spanStatusOf_spanEndOp acc ch.span q

theorem spanStatusOf_closeChildren (l : List String) (s : HState) (q : Nat) :
    spanStatusOf (l.foldl closeChildSpan s) q = spanStatusOf s q := by
  induction l generalizing s with
  | nil => rfl
  | cons x xs ih => rw [List.foldl_cons, ih, spanStatusOf_closeChildSpan]

theorem spanStatusOf_endSpan (s : HState) (sid : Nat) (r : String) (q : Nat) :
    spanStatusOf (_endSpan s sid r) q = spanStatusOf s q := by
  unfold _endSpan
  cases lookupRun s r with
  | none => rfl
  | some holder =>
      show spanStatusOf (spanEndOp (holder.children.foldl closeChildSpan s) sid) q = _
      rw [spanStatusOf_spanEndOp, spanStatusOf_closeChildren]

theorem spanStatusOf_setRequestParams (s : HState) (sid : Nat) (kw : JValue) (rid : String)
    (q : Nat) : spanStatusOf (_setRequestParams s sid kw rid) q = spanStatusOf s q := by
  unfold _setRequestParams
  cases lookupRun s rid with
  | none => rfl
  | some holder =>
      simp only [spanStatusOf_setSpanAttribute]
      rfl

theorem spanStatusOf_createSpan (s : HState) (rid : String) (p : Option String) (nm : String)
    (k : SpanKind) (md : Option JValue) (q : Nat) :
    spanStatusOf (_createSpan s rid p nm k md).1 q =
      if q = s.nextSpan then some .unset else spanStatusOf s q := by
  by_cases hq : q = s.nextSpan
  · subst hq
    unfold _createSpan spanStatusOf lookupSpan
    rw [lookupEntry_setEntry_self]
    simp
  · unfold _createSpan spanStatusOf lookupSpan
    rw [lookupEntry_setEntry_ne _ _ hq]
    simp [hq]

theorem spanStatusOf_spanSetStatusOp_self {s : HState} {sid : Nat} {d : SpanData}
    (st : SpanStatus) (hd : lookupSpan s sid = some d) (hopen : d.ended = false) :
    spanStatusOf (spanSetStatusOp s sid st) sid = some st := by
  simp [spanStatusOf, lookupSpan, spanSetStatusOp, lookupEntry_updateEntry_self,
    show lookupEntry s.spans sid = some d from hd, hopen]

theorem spanStatusOf_spanRecordExceptionOp (s : HState) (sid : Nat) (m : String) (q : Nat) :
    spanStatusOf (spanRecordExceptionOp s sid m) q = spanStatusOf s q := by
  by_cases hq : q = sid
  · subst hq
    cases hd : lookupEntry s.spans q with
    | none =>
        simp [spanStatusOf, lookupSpan, spanRecordExceptionOp, lookupEntry_updateEntry_self, hd]
    | some d =>
        by_cases he : d.ended <;>
          simp [spanStatusOf, lookupSpan, spanRecordExceptionOp,
            lookupEntry_updateEntry_self, hd, he]
  · simp [spanStatusOf, lookupSpan, spanRecordExceptionOp, lookupEntry_updateEntry_ne _ _ hq]

theorem eventsMap_spanEndOp (s : HState) (sid q : Nat) :
    ((lookupSpan (spanEndOp s sid) q).map SpanData.events)
      = ((lookupSpan s q).map SpanData.events) := by
  by_cases hq : q = sid
  · subst hq
    cases hd : lookupEntry s.spans q with
    | none => simp [lookupSpan, spanEndOp, lookupEntry_updateEntry_self, hd]
    | some d => simp [lookupSpan, spanEndOp, lookupEntry_updateEntry_self, hd]
  · simp [lookupSpan, spanEndOp, lookupEntry_updateEntry_ne _ _ hq]

theorem eventsMap_closeChildSpan (acc : HState) (c : String) (q : Nat) :
    ((lookupSpan (closeChildSpan acc c) q).map SpanData.events)
      = ((lookupSpan acc q).map SpanData.events) := by
  unfold closeChildSpan
  cases lookupRun acc c with
  | none => rfl
  | some ch => exact eventsMap_spanEndOp acc ch.span q

theorem eventsMap_closeChildren (l : List String) (s : HState) (q : Nat) :
    ((lookupSpan (l.foldl closeChildSpan s) q).map SpanData.events)
      = ((lookupSpan s q).map SpanData.events) := by
  induction l generalizing s with
  | nil => rfl
  | cons x xs ih => rw [List.foldl_cons, ih, eventsMap_closeChildSpan]

theorem eventsMap_endSpan (s : HState) (sid : Nat) (r : String) (q : Nat) :
    ((lookupSpan (_endSpan s sid r) q).map SpanData.events)
      = ((lookupSpan s q).map SpanData.events) := by
  unfold _endSpan
  cases lookupRun s r with
  | none => rfl
  | some holder =>
      show ((lookupSpan (spanEndOp (holder.children.foldl closeChildSpan s) sid) q).map
        SpanData.events) = _
      rw [eventsMap_spanEndOp, eventsMap_closeChildren]

theorem isSome_lookupSpan_spanSetStatusOp (s : HState) (sid : Nat) (st : SpanStatus)
    (q : Nat) :
    (lookupSpan (spanSetStatusOp s sid st) q).isSome = (lookupSpan s q).isSome := by
  by_cases hq : q = sid
  · subst hq
    simp [lookupSpan, spanSetStatusOp, lookupEntry_updateEntry_self]
  · simp [lookupSpan, spanSetStatusOp, lookupEntry_updateEntry_ne _ _ hq]

theorem isSome_lookupSpan_spanRecordExceptionOp (s : HState) (sid : Nat) (m : String)
    (q : Nat) :
    (lookupSpan (spanRecordExceptionOp s sid m) q).isSome = (lookupSpan s q).isSome := by
  by_cases hq : q = sid
  · subst hq
    simp [lookupSpan, spanRecordExceptionOp, lookupEntry_updateEntry_self]
  · simp [lookupSpan, spanRecordExceptionOp, lookupEntry_updateEntry_ne _ _ hq]

/-- C8 counterexample: start(r) then end(r) leaves the record for r on the
live-lookup path; a subsequent error event finds this live record, yet it
neither sets the span status to error nor records the exception (the span
is already ended and the backend drops the mutations), contradicting the
claim that an error event for a runId with a live record records the
exception and sets the error status. -/
theorem C8_counterexample_error_after_end_is_dropped :
    (lookupRun
      (handleLLMEnd false (vObj []) "r"
        (handleLLMStart false (vObj []) "r" none none none initState)) "r").isSome = true ∧
    spanStatusOf
      (handleLLMError false "boom" "r"
        (handleLLMEnd false (vObj []) "r"
          (handleLLMStart false (vObj []) "r" none none none initState)))
      0 = some SpanStatus.unset ∧
    ((lookupSpan
      (handleLLMError false "boom" "r"
        (handleLLMEnd false (vObj []) "r"
          (handleLLMStart false (vObj []) "r" none none none initState)))
      0).map SpanData.events) = some [] := by
  refine ⟨rfl, rfl, rfl⟩

/-- C8 amended: an error event for a runId whose record is present and
whose span is still open sets the span status to error with the error's
message, records the exception, and ends the span together with its
still-registered children; an end or error event for a runId with no
record is a silent no-op; and no handler other than the error path ever
introduces an error status on any span (if a span has an error status
after any other handler ran, it already had it before). When the record
is present but the span already ended, the error path re-runs but all its
span mutations are dropped by the backend. -/
theorem C8_amended_error_path (s : HState) (m : String) (r : String) (holder : SpanHolder)
    (d : SpanData) (hr : lookupRun s r = some holder)
    (hd : lookupSpan s holder.span = some d) (hopen : d.ended = false) :
    spanStatusOf (handleLLMError false m r s) holder.span = some (.error m) ∧
    ((lookupSpan (handleLLMError false m r s) holder.span).map SpanData.events)
      = some (d.events ++ [m]) ∧
    spanEnded (handleLLMError false m r s) holder.span = true ∧
    (∀ c ∈ holder.children, ∀ ch, lookupRun s c = some ch →
      (lookupSpan s ch.span).isSome = true →
      spanEnded (handleLLMError false m r s) ch.span = true) ∧
    (∀ (s' : HState) (r' : String) (out : JValue) (m' : String),
      lookupRun s' r' = none →
      handleLLMEnd false out r' s' = s' ∧ handleLLMError false m' r' s' = s' ∧
      handleChainEnd false out r' s' = s' ∧ handleChainError false m' r' s' = s' ∧
      handleToolEnd false out r' s' = s' ∧ handleToolError false m' r' s' = s') ∧
    (∀ b llm r' p ep md s' sid msg,
      spanStatusOf (handleChatModelStart b llm r' p ep md s') sid = some (.error msg) →
      spanStatusOf s' sid = some (.error msg)) ∧
    (∀ b llm r' p ep md s' sid msg,
      spanStatusOf (handleLLMStart b llm r' p ep md s') sid = some (.error msg) →
      spanStatusOf s' sid = some (.error msg)) ∧
    (∀ b out r' s' sid msg,
      spanStatusOf (handleLLMEnd b out r' s') sid = some (.error msg) →
      spanStatusOf s' sid = some (.error msg)) ∧
    (∀ b c inp r' p md s' sid msg,
      spanStatusOf (handleChainStart b c inp r' p md s') sid = some (.error msg) →
      spanStatusOf s' sid = some (.error msg)) ∧
    (∀ b out r' s' sid msg,
      spanStatusOf (handleChainEnd b out r' s') sid = some (.error msg) →
      spanStatusOf s' sid = some (.error msg)) ∧
    (∀ b tool inp r' p md s' sid msg,
      spanStatusOf (handleToolStart b tool inp r' p md s') sid = some (.error msg) →
      spanStatusOf s' sid = some (.error msg)) ∧
    (∀ b out r' s' sid msg,
      spanStatusOf (handleToolEnd b out r' s') sid = some (.error msg) →
      spanStatusOf s' sid = some (.error msg)) ∧
    (∀ b act r' s' sid msg,
      spanStatusOf (handleAgentAction b act r' s') sid = some (.error msg) →
      spanStatusOf s' sid = some (.error msg)) ∧
    (∀ b act r' s' sid msg,
      spanStatusOf (handleAgentEnd b act r' s') sid = some (.error msg) →
      spanStatusOf s' sid = some (.error msg)) := by
  refine ⟨?_, ?_, ?_, ?_, ?_, ?_, ?_, ?_, ?_, ?_, ?_, ?_, ?_, ?_⟩
  · unfold handleLLMError _handleError
    rw [if_neg (by decide)]
    cases hrr : lookupRun s r with
    | none => rw [hrr] at hr; cases hr
    | some holder2 =>
        rw [hrr] at hr
        injection hr with hh
        subst hh
        show spanStatusOf (_endSpan (spanRecordExceptionOp
          (spanSetStatusOp s holder2.span (.error m)) holder2.span m) holder2.span r)
          holder2.span = some (.error m)
        rw [spanStatusOf_endSpan, spanStatusOf_spanRecordExceptionOp]
        exact spanStatusOf_spanSetStatusOp_self _ hd hopen
  · unfold handleLLMError _handleError
    rw [if_neg (by decide)]
    cases hrr : lookupRun s r with
    | none => rw [hrr] at hr; cases hr
    | some holder2 =>
        rw [hrr] at hr
        injection hr with hh
        subst hh
        show ((lookupSpan (_endSpan (spanRecordExceptionOp
          (spanSetStatusOp s holder2.span (.error m)) holder2.span m) holder2.span r)
          holder2.span).map SpanData.events) = some (d.events ++ [m])
        rw [eventsMap_endSpan]
        simp [spanRecordExceptionOp, spanSetStatusOp, lookupSpan, lookupEntry_updateEntry_self,
          show lookupEntry s.spans holder2.span = some d from hd, hopen]
  · unfold handleLLMError _handleError
    rw [if_neg (by decide)]
    cases hrr : lookupRun s r with
    | none => rw [hrr] at hr; cases hr
    | some holder2 =>
        rw [hrr] at hr
        injection hr with hh
        subst hh
        refine spanEnded_endSpan_self holder2.span r (hrr : lookupRun _ r = some holder2) ?_
        rw [isSome_lookupSpan_spanRecordExceptionOp, isSome_lookupSpan_spanSetStatusOp, hd]
        rfl
  · intro c hc ch hch hcp
    unfold handleLLMError _handleError
    rw [if_neg (by decide)]
    cases hrr : lookupRun s r with
    | none => rw [hrr] at hr; cases hr
    | some holder2 =>
        rw [hrr] at hr
        injection hr with hh
        subst hh
        show spanEnded (_endSpan (spanRecordExceptionOp
          (spanSetStatusOp s holder2.span (.error m)) holder2.span m) holder2.span r)
          ch.span = true
        unfold _endSpan
        rw [show lookupRun (spanRecordExceptionOp
          (spanSetStatusOp s holder2.span (.error m)) holder2.span m) r = some holder2
          from hrr]
        refine spanEnded_spanEndOp_mono
          (spanEnded_closeChildren_of_mem holder2.children hc (hch : lookupRun _ c = some ch) ?_)
        rw [isSome_lookupSpan_spanRecordExceptionOp, isSome_lookupSpan_spanSetStatusOp]
        exact hcp
  · intro s' r' out m' hnone
    refine ⟨?_, ?_, ?_, ?_, ?_, ?_⟩
    · unfold handleLLMEnd
      rw [if_neg (by decide), hnone]
    · unfold handleLLMError _handleError
      rw [if_neg (by decide), hnone]
    · unfold handleChainEnd
      rw [if_neg (by decide), hnone]
    · unfold handleChainError _handleError
      rw [if_neg (by decide), hnone]
    · unfold handleToolEnd
      rw [if_neg (by decide), hnone]
    · unfold handleToolError _handleError
      rw [if_neg (by decide), hnone]
  · intro b llm r' p ep md s' sid msg h
    cases b with
    | true => exact h
    | false =>
        cases ep with
        | none =>
            unfold handleChatModelStart at h
            rw [if_neg (by decide)] at h
            simp only [spanStatusOf_setRequestParams, spanStatusOf_setSpanAttribute,
              spanStatusOf_createSpan] at h
            split at h
            · simp at h
            · exact h
        | some e =>
            unfold handleChatModelStart at h
            rw [if_neg (by decide)] at h
            simp only [spanStatusOf_setRequestParams, spanStatusOf_setSpanAttribute,
              spanStatusOf_createSpan,
              apply_ite (fun t : HState => spanStatusOf t sid), ite_self] at h
            split at h
            · simp at h
            · exact h
  · intro b llm r' p ep md s' sid msg h
    cases b with
    | true => exact h
    | false =>
        unfold handleLLMStart at h
        rw [if_neg (by decide)] at h
        simp only [spanStatusOf_setRequestParams, spanStatusOf_setSpanAttribute,
          spanStatusOf_createSpan] at h
        split at h
        · simp at h
        · exact h
  · intro b out r' s' sid msg h
    cases b with
    | true => exact h
    | false =>
        unfold handleLLMEnd at h
        rw [if_neg (by decide)] at h
        cases hlr : lookupRun s' r' with
        | none => rw [hlr] at h; exact h
        | some holder2 =>
            rw [hlr] at h
            simp only [spanStatusOf_endSpan, spanStatusOf_setSpanAttribute,
              apply_ite (fun t : HState => spanStatusOf t sid), ite_self] at h
            exact h
  · intro b c inp r' p md s' sid msg h
    cases b with
    | true => exact h
    | false =>
        cases md with
        | none =>
            unfold handleChainStart at h
            rw [if_neg (by decide)] at h
            simp only [spanStatusOf_setSpanAttribute, spanStatusOf_createSpan] at h
            split at h
            · simp at h
            · exact h
        | some mv =>
            unfold handleChainStart at h
            rw [if_neg (by decide)] at h
            simp only [spanStatusOf_setSpanAttribute, spanStatusOf_createSpan,
              apply_ite (fun t : HState => spanStatusOf t sid), ite_self] at h
            split at h
            · simp at h
            · exact h
  · intro b out r' s' sid msg h
    cases b with
    | true => exact h
    | false =>
        unfold handleChainEnd at h
        rw [if_neg (by decide)] at h
        cases hlr : lookupRun s' r' with
        | none => rw [hlr] at h; exact h
        | some holder2 =>
            rw [hlr] at h
            simp only [spanStatusOf_endSpan, spanStatusOf_setSpanAttribute] at h
            exact h
  · intro b tool inp r' p md s' sid msg h
    cases b with
    | true => exact h
    | false =>
        unfold handleToolStart at h
        rw [if_neg (by decide)] at h
        simp only [spanStatusOf_setSpanAttribute, spanStatusOf_createSpan,
          apply_ite (fun t : HState => spanStatusOf t sid), ite_self] at h
        split at h
        · simp at h
        · exact h
  · intro b out r' s' sid msg h
    cases b with
    | true => exact h
    | false =>
        unfold handleToolEnd at h
        rw [if_neg (by decide)] at h
        cases hlr : lookupRun s' r' with
        | none => rw [hlr] at h; exact h
        | some holder2 =>
            rw [hlr] at h
            simp only [spanStatusOf_endSpan, spanStatusOf_setSpanAttribute] at h
            exact h
  · intro b act r' s' sid msg h
    unfold handleAgentAction at h
    cases hlr : lookupRun s' r' with
    | none => rw [hlr] at h; exact h
    | some holder2 =>
        rw [hlr] at h
        simp only [spanStatusOf_setSpanAttribute] at h
        exact h
  · intro b act r' s' sid msg h
    unfold handleAgentEnd at h
    cases hlr : lookupRun s' r' with
    | none => rw [hlr] at h; exact h
    | some holder2 =>
        rw [hlr] at h
        simp only [spanStatusOf_setSpanAttribute] at h
        exact h

/-- C8 witness: on a live record with an open span, an error event sets
the error status and ends the span. -/
theorem C8_amended_error_path_witness :
    spanStatusOf
      (handleLLMError false "boom" "r"
        { spans := [(0, { name := "n", kind := .internal, parent := none, attrs := [],
                          status := .unset, events := [], ended := false })],
          nextSpan := 1,
          spanMapping := [("r", { span := 0, children := [],
                                  requestModel := vStr "unknown" })] })
      0 = some (SpanStatus.error "boom") ∧
    spanEnded
      (handleLLMError false "boom" "r"
        { spans := [(0, { name := "n", kind := .internal, parent := none, attrs := [],
                          status := .unset, events := [], ended := false })],
          nextSpan := 1,
          spanMapping := [("r", { span := 0, children := [],
                                  requestModel := vStr "unknown" })] })
      0 = true := by
  have h := C8_amended_error_path
    { spans := [(0, { name := "n", kind := .internal, parent := none, attrs := [],
                      status := .unset, events := [], ended := false })],
      nextSpan := 1,
      spanMapping := [("r", { span := 0, children := [],
                              requestModel := vStr "unknown" })] }
    "boom" "r" { span := 0, children := [], requestModel := vStr "unknown" }
    { name := "n", kind := .internal, parent := none, attrs := [],
      status := .unset, events := [], ended := false }
    (by rfl) (by rfl) (by rfl)
  exact ⟨h.1, h.2.2.1⟩

theorem lookupEntry_sanitizeFold_skip (fields : List (String × JValue))
    (acc : List (String × JValue)) (k : String) (hk : ∀ p ∈ fields, p.1 ≠ k) :
    lookupEntry (fields.foldl sanitizeEntryStep acc) k = lookupEntry acc k := by
  induction fields generalizing acc with
  | nil => rfl
  | cons p rest ih =>
      rw [List.foldl_cons, ih _ (fun w hw => hk w (List.mem_cons_of_mem p hw))]
      unfold sanitizeEntryStep
      split
      · exact lookupEntry_setEntry_ne _ _ (Ne.symm (hk p (List.mem_cons_self p rest)))
      · rfl

theorem lookupEntry_sanitizeFold_none (fields : List (String × JValue))
    (acc : List (String × JValue)) (k : String) (hacc : lookupEntry acc k = none)
    (hall : ∀ w, (k, w) ∈ fields → w = vNull ∨ w = vUndefined) :
    lookupEntry (fields.foldl sanitizeEntryStep acc) k = none := by
  induction fields generalizing acc with
  | nil => exact hacc
  | cons p rest ih =>
      obtain ⟨k', v'⟩ := p
      rw [List.foldl_cons]
      refine ih _ ?_ fun w hw => hall w (List.mem_cons_of_mem _ hw)
      by_cases hkk : k' = k
      · subst hkk
        rcases hall v' (List.mem_cons_self _ _) with h | h <;> subst h <;>
          simpa [sanitizeEntryStep, JValue.isNull, JValue.isUndef] using hacc
      · unfold sanitizeEntryStep
        split
        · rw [lookupEntry_setEntry_ne _ _ (Ne.symm hkk)]
          exact hacc
        · exact hacc

theorem lookupEntry_sanitizeFold_mem (fields : List (String × JValue))
    (acc : List (String × JValue)) (k : String) (v : JValue)
    (hnodup : (fields.map Prod.fst).Nodup) (hmem : (k, v) ∈ fields)
    (hn : v.isNull = false) (hu : v.isUndef = false) :
    lookupEntry (fields.foldl sanitizeEntryStep acc) k
      = some (_sanitizeMetadataValue v) := by
  induction fields generalizing acc with
  | nil => cases hmem
  | cons p rest ih =>
      obtain ⟨k', v'⟩ := p
      rw [List.foldl_cons]
      rcases List.mem_cons.mp hmem with heq | hmem'
      · cases heq
        have hrest : ∀ w ∈ rest, w.1 ≠ k := by
          intro w hw he
          have hmm : k ∈ rest.map Prod.fst := by
            rw [← he]
            exact List.mem_map_of_mem Prod.fst hw
          exact (List.nodup_cons.mp (by simpa using hnodup)).1 hmm
        rw [lookupEntry_sanitizeFold_skip rest _ k hrest]
        simp [sanitizeEntryStep, hn, hu, lookupEntry_setEntry_self]
      · have hk' : k' ≠ k := by
          intro he
          subst he
          have hmm : k' ∈ rest.map Prod.fst := by
            have := List.mem_map_of_mem Prod.fst hmem'
            simpa using this
          exact (List.nodup_cons.mp (by simpa using hnodup)).1 hmm
        exact ih _ (List.nodup_cons.mp (by simpa using hnodup)).2 hmem'

/-- C9: metadata sanitization: booleans, numbers, strings and byte buffers
pass through _sanitizeMetadataValue unchanged; an array is mapped
element-wise through the same sanitizer with each element stringified; any
other value (a plain object) is coerced to its string representation; and
in the propagated map built by _createSpan, a key bound to a non-null,
non-undefined value maps to its sanitized value, while a key bound only to
null or undefined (or absent) is dropped, never forwarded. -/
theorem C9_metadata_sanitization (b : Bool) (q : Rat) (str : String) (bs : List Nat)
    (l : List JValue) (fields : List (String × JValue)) (k : String) (v : JValue) :
    _sanitizeMetadataValue (vBool b) = vBool b ∧
    _sanitizeMetadataValue (vNum q) = vNum q ∧
    _sanitizeMetadataValue (vStr str) = vStr str ∧
    _sanitizeMetadataValue (vBuf bs) = vBuf bs ∧
    _sanitizeMetadataValue (vArr l)
      = vArr (l.map fun e => vStr (jsToString (_sanitizeMetadataValue e))) ∧
    _sanitizeMetadataValue (vObj fields) = vStr (jsToString (vObj fields)) ∧
    ((fields.map Prod.fst).Nodup → (k, v) ∈ fields → v.isNull = false →
      v.isUndef = false →
      lookupEntry (sanitizedEntries (vObj fields)) k = some (_sanitizeMetadataValue v)) ∧
    ((∀ w, (k, w) ∈ fields → w = vNull ∨ w = vUndefined) →
      lookupEntry (sanitizedEntries (vObj fields)) k = none) := by
  refine ⟨by simp [_sanitizeMetadataValue], by simp [_sanitizeMetadataValue],
    by simp [_sanitizeMetadataValue], by simp [_sanitizeMetadataValue], ?_,
    by simp [_sanitizeMetadataValue], ?_, ?_⟩
  · rw [_sanitizeMetadataValue]
    rw [List.attach_map_val l (fun e => vStr (jsToString (_sanitizeMetadataValue e)))]
  · intro hnodup hmem hn hu
    exact lookupEntry_sanitizeFold_mem fields [] k v hnodup hmem hn hu
  · intro hall
    exact lookupEntry_sanitizeFold_none fields [] k rfl hall

/-- C9 witness: the entry ("a", 1) is forwarded sanitized while the key
"b" bound to null is dropped. -/
theorem C9_metadata_sanitization_witness :
    lookupEntry (sanitizedEntries (vObj [("a", vNum 1), ("b", vNull)])) "a"
      = some (vNum 1) ∧
    lookupEntry (sanitizedEntries (vObj [("a", vNum 1), ("b", vNull)])) "b" = none := by
  constructor
  · have h := (C9_metadata_sanitization false 0 "" [] []
      [("a", vNum 1), ("b", vNull)] "a" (vNum 1)).2.2.2.2.2.2.1
      (by simp) (by simp) (by rfl) (by rfl)
    rw [h]
    simp [_sanitizeMetadataValue]
  · have h := (C9_metadata_sanitization false 0 "" [] []
      [("a", vNum 1), ("b", vNull)] "b" vUndefined).2.2.2.2.2.2.2
      (by intro w hw
          rcases List.mem_cons.mp hw with heq | hw2
          · injection heq with h1 h2
            exact absurd h1 (by decide)
          · rcases List.mem_cons.mp hw2 with heq2 | h3
            · injection heq2 with h1 h2
              exact Or.inl h2
            · cases h3)
    exact h

/-- C1 witness: the amended statement at a concrete start/end pair; the
frame conjunct is discharged at span id 5. -/
theorem C1_amended_close_idempotent_record_persists_witness :
    (handleLLMStart false (vObj []) "w" none none none initState).nextSpan = 1 ∧
    spanEnded
      (handleLLMEnd false (vObj []) "w"
        (handleLLMStart false (vObj []) "w" none none none initState)) 0 = true ∧
    spanEnded
      (handleLLMEnd false (vObj []) "w"
        (handleLLMStart false (vObj []) "w" none none none initState)) 5
      = spanEnded (handleLLMStart false (vObj []) "w" none none none initState) 5 := by
  have h := C1_amended_close_idempotent_record_persists initState (vObj []) (vObj [])
    none none "w"
  exact ⟨h.1, h.2.2.1, h.2.2.2.2.1 5 (by decide)⟩
